import Mathlib

/-!
# Verification of the sale-stock-manager inventory & transaction core

This file gives a shallow embedding, in Lean 4, of the stock-mutating
operations of the retail point-of-sale backend (`backend/routes/sales.py`,
`backend/routes/returns.py`, `backend/routes/inventory.py`,
`backend/routes/purchases.py` and the data model of `backend/models.py`),
and settles the specification claims about them.

Modelling conventions:

* SQLAlchemy rows become Lean structures; the database session becomes an
  explicit `DB` record of lists of rows.
* Python `int` columns become `Int` (stock quantities can in fact go
  negative, so `Nat` would be unfaithful); `Float` money columns become
  exact integers `Int` (no claim in scope depends on fractional amounts
  or binary floating-point rounding; every money computation the claims
  mention — price × quantity, sums of line totals, comparisons — is
  structure-preserving over any exact numeric type).
* Each Flask route that mutates state becomes a function
  `DB → ⋯ → Except ApiError DB`.  Returning `.error e` models every path
  on which the route answers an error response without ever reaching
  `db.session.commit()` (explicit `rollback`, an early `return jsonify`
  with the uncommitted session discarded at request teardown, or an
  uncaught Python exception handled by the route's `except` clause): in
  all those cases no change is persisted, which the model renders by the
  error carrying no successor state.
* Timestamps are seconds since an arbitrary epoch (`Int`); the only time
  arithmetic in scope is the 1h05m sale-amendment window.
* `models.py` comments out the `store_credit` column of `Customer`
  (line 81), so a live `Customer` object has no `store_credit` attribute;
  the reads of `customer.store_credit` in `routes/returns.py` therefore
  raise `AttributeError` at run time.  The model renders such a read as
  `.error (.attributeError "store_credit")`.
-/

namespace SaleStock

/-- A row of the `products` table (`models.py`, class `Product`).
Fields not consulted by any stock-mutating operation (description, sku,
barcode, category, cost price, timestamps, …) are omitted. -/
structure Product where
  id : Nat
  name : String
  price : Int
  stock_quantity : Int
  min_stock_level : Int
  is_active : Bool
  batch_management_enabled : Bool
  deriving Repr, DecidableEq

/-- A row of the `product_batches` table (`models.py`, class `ProductBatch`). -/
structure ProductBatch where
  id : Nat
  product_id : Nat
  stock_quantity : Int
  sale_price : Option Int
  deriving Repr, DecidableEq

/-- A row of the `customers` table (`models.py`, class `Customer`).
NOTE: the `store_credit` column is commented out in the source
(`models.py` line 81), so the structure deliberately has no such field. -/
structure Customer where
  id : Nat
  name : String
  deriving Repr, DecidableEq

/-- A row of the `sales` table (`models.py`, class `Sale`). -/
structure Sale where
  id : Nat
  sale_number : String
  customer_id : Option Nat
  subtotal : Int
  tax_amount : Int
  discount_amount : Int
  total_amount : Int
  payment_method : String
  status : String
  created_at : Int
  deriving Repr, DecidableEq

/-- A row of the `sale_items` table (`models.py`, class `SaleItem`). -/
structure SaleItem where
  sale_id : Nat
  product_id : Nat
  batch_id : Option Nat
  quantity : Int
  unit_price : Int
  total_price : Int
  deriving Repr, DecidableEq

/-- A row of the `purchases` table (`models.py`, class `Purchase`). -/
structure Purchase where
  id : Nat
  purchase_number : String
  supplier_name : String
  total_amount : Int
  status : String
  deriving Repr, DecidableEq

/-- A row of the `purchase_items` table (`models.py`, class `PurchaseItem`). -/
structure PurchaseItem where
  purchase_id : Nat
  product_id : Nat
  quantity : Int
  unit_cost : Int
  total_cost : Int
  deriving Repr, DecidableEq

/-- A row of the `returns` table (`models.py`, class `Return`). -/
structure ReturnRec where
  id : Nat
  return_number : String
  sale_id : Nat
  customer_id : Option Nat
  total_refund_amount : Int
  reason : String
  status : String
  deriving Repr, DecidableEq

/-- A row of the `return_items` table (`models.py`, class `ReturnItem`). -/
structure ReturnItem where
  return_id : Nat
  product_id : Nat
  quantity : Int
  unit_price : Int
  total_price : Int
  deriving Repr, DecidableEq

/-- A row of the `credit_notes` table (`models.py`, class `CreditNote`). -/
structure CreditNote where
  id : Nat
  credit_note_number : String
  customer_id : Option Nat
  return_id : Option Nat
  initial_amount : Int
  remaining_amount : Int
  status : String
  deriving Repr, DecidableEq

/-- The persisted state: one list of rows per table. -/
structure DB where
  products : List Product
  batches : List ProductBatch
  customers : List Customer
  sales : List Sale
  sale_items : List SaleItem
  purchases : List Purchase
  purchase_items : List PurchaseItem
  returns : List ReturnRec
  return_items : List ReturnItem
  credit_notes : List CreditNote
  deriving Repr, DecidableEq

/-- The error outcomes of the modelled routes.  Each constructor stands for
one distinct error response of the Python code (message payloads are kept
insofar as a claim mentions them). -/
inductive ApiError where
  /-- `'At least one item is required'` -/
  | noItems
  /-- `'Product with ID {id} not found'` (or `get_or_404` on a product) -/
  | productNotFound (pid : Nat)
  /-- `'Product {name} is not active'` -/
  | productInactive (name : String)
  /-- `'Insufficient stock for {name}. Available: {a}, Requested/needed: {q}'` -/
  | insufficientStock (name : String) (available : Int) (requested : Int)
  /-- `'Batch ID is required for product {name}'` -/
  | batchRequired (name : String)
  /-- `'Invalid batch ID {bid} for product {name}'` -/
  | invalidBatch (bid : Nat) (name : String)
  /-- `get_or_404` on a sale id -/
  | saleNotFound (sid : Nat)
  /-- `'Sale is too old to be updated directly. …'` -/
  | saleTooOld
  /-- `'Sale is already voided'` -/
  | alreadyVoided
  /-- `'Refund amount cannot exceed sale total'` -/
  | refundExceedsTotal
  /-- `'Product {pid} not found in original sale'` -/
  | productNotInSale (pid : Nat)
  /-- `'Cannot refund more than originally sold for product {pid}'` -/
  | overRefund (pid : Nat)
  /-- `get_or_404` on a return id -/
  | returnNotFound (rid : Nat)
  /-- `'Sale ID and items are required'` -/
  | missingSaleOrItems
  /-- `'Credit notes can only be issued to registered customers.'` -/
  | creditNoteRequiresCustomer
  /-- An uncaught Python `AttributeError` on the named attribute,
  answered as a 500 by the route's blanket `except` clause. -/
  | attributeError (attr : String)
  /-- `'{field} is required'` -/
  | missingField (f : String)
  /-- `'Quantity must be greater than 0'` -/
  | quantityNotPositive
  /-- `'Cannot decrease stock below zero. Current stock: {s}'` -/
  | decreaseBelowZero (current : Int)
  /-- `'Invalid adjustment type. Use "increase" or "decrease"'` -/
  | invalidAdjustmentType
  /-- `'Missing required fields'` -/
  | missingFields
  deriving Repr, DecidableEq

/-- Equality of operation outcomes is decidable (used to evaluate the
model on concrete states). -/
instance {e a : Type} [DecidableEq e] [DecidableEq a] : DecidableEq (Except e a) :=
  fun x y =>
  match x, y with
  | .error e1, .error e2 =>
    if h : e1 = e2 then isTrue (by rw [h])
    else isFalse (by intro hc; cases hc; exact h rfl)
  | .ok a1, .ok a2 =>
    if h : a1 = a2 then isTrue (by rw [h])
    else isFalse (by intro hc; cases hc; exact h rfl)
  | .error _, .ok _ => isFalse (by intro hc; cases hc)
  | .ok _, .error _ => isFalse (by intro hc; cases hc)

/-- `Product.query.get(pid)`. -/
def findProduct (db : DB) (pid : Nat) : Option Product :=
  db.products.find? (fun p => p.id == pid)

/-- `ProductBatch.query.get(bid)`. -/
def findBatch (db : DB) (bid : Nat) : Option ProductBatch :=
  db.batches.find? (fun b => b.id == bid)

/-- `Sale.query.get(sid)`. -/
def findSale (db : DB) (sid : Nat) : Option Sale :=
  db.sales.find? (fun s => s.id == sid)

/-- `Return.query.get(rid)`. -/
def findReturn (db : DB) (rid : Nat) : Option ReturnRec :=
  db.returns.find? (fun r => r.id == rid)

/-- `Customer.query.get(cid)`. -/
def findCustomer (db : DB) (cid : Nat) : Option Customer :=
  db.customers.find? (fun c => c.id == cid)

/-- The ORM relationship `sale.items` (all `SaleItem` rows of one sale). -/
def saleItemsOf (db : DB) (sid : Nat) : List SaleItem :=
  db.sale_items.filter (fun i => i.sale_id == sid)

/-- Point update of one product row (in-place mutation of the ORM object). -/
def updateProduct (db : DB) (pid : Nat) (f : Product → Product) : DB :=
  { db with products := db.products.map (fun p => if p.id == pid then f p else p) }

/-- Point update of one batch row. -/
def updateBatch (db : DB) (bid : Nat) (f : ProductBatch → ProductBatch) : DB :=
  { db with batches := db.batches.map (fun b => if b.id == bid then f b else b) }

/-- Point update of one sale row. -/
def updateSaleRow (db : DB) (sid : Nat) (f : Sale → Sale) : DB :=
  { db with sales := db.sales.map (fun s => if s.id == sid then f s else s) }

/-- The stock counter of product `pid`, if the product exists. -/
def stockOf (db : DB) (pid : Nat) : Option Int :=
  (findProduct db pid).map (fun p => p.stock_quantity)

/-- The stock counter of batch `bid`, if the batch exists. -/
def batchStockOf (db : DB) (bid : Nat) : Option Int :=
  (findBatch db bid).map (fun b => b.stock_quantity)

/-- `Σ batch.stock_quantity` over the batches of a product — the quantity
`Product.to_dict` reports as `stock_quantity` when batch management is
enabled (`models.py` lines 44–48). -/
def batchStockSum (db : DB) (pid : Nat) : Int :=
  ((db.batches.filter (fun b => b.product_id == pid)).map
    (fun b => b.stock_quantity)).sum

/-- The `stock_quantity` entry of `Product.to_dict` (`models.py` lines
44–56): the batch sum when batch management is on, the product's own
counter otherwise. -/
def productDictStock (db : DB) (p : Product) : Int :=
  if p.batch_management_enabled then batchStockSum db p.id else p.stock_quantity

/-! ## Sale creation (`routes/sales.py`, `create_sale`) -/

/-- One entry of the request's `items` list.  `batch_id` and `unit_price`
model `item_data.get('batch_id')` and `item_data.get('unit_price', …)`. -/
structure SaleItemReq where
  product_id : Nat
  quantity : Int
  batch_id : Option Nat
  unit_price : Option Int
  deriving Repr, DecidableEq

/-- The request body of `POST /sales`, after the `data.get(key, default)`
defaulting that the route applies (`tax_amount`/`discount_amount` default
to 0, `payment_method` to `'cash'`, `status` to `'completed'`). -/
structure SaleReq where
  items : List SaleItemReq
  customer_id : Option Nat
  subtotal : Int
  tax_amount : Int
  discount_amount : Int
  total_amount : Int
  payment_method : String
  status : String
  deriving Repr, DecidableEq

/-- The first validation pass of `create_sale` (`sales.py` lines 167–192):
for each line, the product must exist, be active, and have
`product.stock_quantity ≥ quantity`.  No state is mutated here. -/
def validateItems (db : DB) : List SaleItemReq → Except ApiError Unit
  | [] => .ok ()
  | it :: rest =>
    match findProduct db it.product_id with
    | none => .error (.productNotFound it.product_id)
    | some p =>
      if !p.is_active then
        .error (.productInactive p.name)
      else if p.stock_quantity < it.quantity then
        .error (.insufficientStock p.name p.stock_quantity it.quantity)
      else
        validateItems db rest

/-- The second pass of `create_sale` (`sales.py` lines 212–240): resolve
the unit price and the stock pool per line, debit the pool, and append the
`SaleItem` row.  The product is re-fetched from the session each
iteration, so repeated lines for one product see each other's decrements. -/
def processItems (sid : Nat) : DB → List SaleItemReq → Except ApiError DB
  | db, [] => .ok db
  | db, it :: rest =>
    match findProduct db it.product_id with
    | none => .error (.productNotFound it.product_id)
    | some p =>
      if p.batch_management_enabled then
        match it.batch_id with
        | none => .error (.batchRequired p.name)
        | some bid =>
          match findBatch db bid with
          | none => .error (.invalidBatch bid p.name)
          | some b =>
            if b.product_id == p.id then
              let price := b.sale_price.getD p.price
              let db := updateBatch db bid
                (fun x => { x with stock_quantity := x.stock_quantity - it.quantity })
              let db := { db with sale_items := db.sale_items ++
                [⟨sid, it.product_id, some bid, it.quantity, price, price * it.quantity⟩] }
              processItems sid db rest
            else
              .error (.invalidBatch bid p.name)
      else
        let price := it.unit_price.getD p.price
        let db := updateProduct db it.product_id
          (fun q => { q with stock_quantity := q.stock_quantity - it.quantity })
        let db := { db with sale_items := db.sale_items ++
          [⟨sid, it.product_id, none, it.quantity, price, price * it.quantity⟩] }
        processItems sid db rest

/-- `POST /sales` (`sales.py` lines 146–251).  `sid` is the primary key the
flush assigns, `saleNumber` the generated `SALE-…` string, `now` the
creation timestamp; all three are environmental inputs of the route. -/
def createSale (db : DB) (req : SaleReq) (sid : Nat) (saleNumber : String)
    (now : Int) : Except ApiError DB :=
  if req.items.isEmpty then
    .error .noItems
  else
    match validateItems db req.items with
    | .error e => .error e
    | .ok () =>
      let sale : Sale :=
        { id := sid, sale_number := saleNumber, customer_id := req.customer_id
          subtotal := req.subtotal, tax_amount := req.tax_amount
          discount_amount := req.discount_amount, total_amount := req.total_amount
          payment_method := req.payment_method, status := req.status
          created_at := now }
      processItems sid { db with sales := db.sales ++ [sale] } req.items

/-! ## Sale amendment (`routes/sales.py`, `update_sale`) -/

/-- One entry of the `items` list of `PUT /sales/<id>` (the route reads
`item['product_id']`, `item['quantity']` and `item['price']`). -/
structure UpdateItemReq where
  product_id : Nat
  quantity : Int
  price : Int
  deriving Repr, DecidableEq

/-- The request body of `PUT /sales/<id>` after defaulting.
`payment_method = none` models an absent key (the route then keeps the
sale's current method); `customer_id` is `data.get('customer_id')`, which
is `None` when absent. -/
structure UpdateReq where
  items : List UpdateItemReq
  customer_id : Option Nat
  subtotal : Int
  tax_amount : Int
  discount_amount : Int
  total_amount : Int
  payment_method : Option String
  deriving Repr, DecidableEq

/-- Python dict built by `{kv.1: kv.2 for kv in l}`, looked up with
`.get(k, 0)`: the value of the *last* pair with the given key, else 0. -/
def dictGetD (l : List (Nat × Int)) (k : Nat) : Int :=
  ((l.reverse.find? (fun kv => kv.1 == k)).map (fun kv => kv.2)).getD 0

/-- Worker for `dedupFirst`: drop keys already seen. -/
def dedupFirstAux (seen : List Nat) : List Nat → List Nat
  | [] => []
  | k :: rest =>
    if k ∈ seen then dedupFirstAux seen rest
    else k :: dedupFirstAux (k :: seen) rest

/-- Key list of a Python dict union, first occurrence kept.  (CPython
iterates `set(old) | set(new)` in an unspecified order; the claims proved
below are insensitive to the order, and this model fixes
first-occurrence order.) -/
def dedupFirst (l : List Nat) : List Nat :=
  dedupFirstAux [] l

/-- The per-product stock-delta loop of `update_sale` (`sales.py` lines
275–290): for each product id in the union, skip it if the product row is
gone (`continue`), fail if a negative delta would need more stock than is
available, else add the delta to the product's counter. -/
def applyDeltas (oldQ newQ : Nat → Int) : DB → List Nat → Except ApiError DB
  | db, [] => .ok db
  | db, pid :: rest =>
    match findProduct db pid with
    | none => applyDeltas oldQ newQ db rest
    | some p =>
      let diff := oldQ pid - newQ pid
      if diff < 0 ∧ p.stock_quantity < -diff then
        .error (.insufficientStock p.name p.stock_quantity (-diff))
      else
        applyDeltas oldQ newQ
          (updateProduct db pid
            (fun q => { q with stock_quantity := q.stock_quantity + diff})) rest

/-- `PUT /sales/<id>` (`sales.py` lines 253–321): only sales younger than
1h05m (3900 s) may be amended; stock is adjusted by `old − new` per
product over the union of the old and new item sets; then all old
`SaleItem` rows are deleted and the new ones inserted, and the header
fields are overwritten. -/
def updateSale (db : DB) (saleId : Nat) (req : UpdateReq) (now : Int) :
    Except ApiError DB :=
  match findSale db saleId with
  | none => .error (.saleNotFound saleId)
  | some sale =>
    if now - sale.created_at > 3900 then
      .error .saleTooOld
    else
      let oldPairs := (saleItemsOf db saleId).map (fun i => (i.product_id, i.quantity))
      let newPairs := req.items.map (fun i => (i.product_id, i.quantity))
      let keys := dedupFirst (oldPairs.map (fun kv => kv.1) ++ newPairs.map (fun kv => kv.1))
      match applyDeltas (dictGetD oldPairs) (dictGetD newPairs) db keys with
      | .error e => .error e
      | .ok db =>
        let newRows : List SaleItem := req.items.map (fun i =>
          ⟨saleId, i.product_id, none, i.quantity, i.price, i.price * i.quantity⟩)
        let db := { db with sale_items :=
          db.sale_items.filter (fun i => i.sale_id != saleId) ++ newRows }
        .ok (updateSaleRow db saleId (fun s =>
          { s with customer_id := req.customer_id
                   subtotal := req.subtotal
                   tax_amount := req.tax_amount
                   discount_amount := req.discount_amount
                   total_amount := req.total_amount
                   payment_method := req.payment_method.getD s.payment_method }))

/-! ## Void and refund (`routes/sales.py`, `void_sale` / `refund_sale`) -/

/-- `if item.product: item.product.stock_quantity += q` — the guarded
credit of a product counter used by the void/refund loops. -/
def creditProduct (db : DB) (pid : Nat) (q : Int) : DB :=
  if (findProduct db pid).isSome then
    updateProduct db pid
      (fun p => { p with stock_quantity := p.stock_quantity + q })
  else db

/-- `if item.product: item.product.stock_quantity -= q` — the guarded
debit used by `delete_return`. -/
def debitProduct (db : DB) (pid : Nat) (q : Int) : DB :=
  if (findProduct db pid).isSome then
    updateProduct db pid
      (fun p => { p with stock_quantity := p.stock_quantity - q })
  else db

/-- The stock-restoration loop shared by `void_sale` and the full-refund
branch of `refund_sale`: for each item of the sale, if the product row
still exists, add the item's quantity to the *product's* counter (the
batch pool is never touched). -/
def restoreAllItems (db : DB) (items : List SaleItem) : DB :=
  items.foldl (fun d i => creditProduct d i.product_id i.quantity) db

/-- `POST /sales/<id>/void` (`sales.py` lines 323–353): refuse only a sale
that is already `voided`; otherwise credit every item's quantity back to
its product counter and set the status to `voided`. -/
def voidSale (db : DB) (saleId : Nat) : Except ApiError DB :=
  match findSale db saleId with
  | none => .error (.saleNotFound saleId)
  | some sale =>
    if sale.status == "voided" then
      .error .alreadyVoided
    else
      let db := restoreAllItems db (saleItemsOf db saleId)
      .ok (updateSaleRow db saleId (fun s => { s with status := "voided" }))

/-- One entry of the `refund_items` list of `POST /sales/<id>/refund`. -/
structure RefundItemReq where
  product_id : Nat
  quantity : Int
  deriving Repr, DecidableEq

/-- The item loop of the partial-refund branch (`sales.py` lines 373–395):
each listed product must occur in the sale (first matching `SaleItem`) and
the listed quantity must not exceed that item's quantity; stock is
credited to the product counter. -/
def processRefundItems (saleItems : List SaleItem) :
    DB → List RefundItemReq → Except ApiError DB
  | db, [] => .ok db
  | db, r :: rest =>
    match saleItems.find? (fun i => i.product_id == r.product_id) with
    | none => .error (.productNotInSale r.product_id)
    | some si =>
      if si.quantity < r.quantity then
        .error (.overRefund r.product_id)
      else
        processRefundItems saleItems (creditProduct db r.product_id r.quantity) rest

/-- `POST /sales/<id>/refund` (`sales.py` lines 355–423).
`refundAmount = none` models an absent `refund_amount` key, which defaults
to `sale.total_amount`.  Note the route never inspects `sale.status`. -/
def refundSale (db : DB) (saleId : Nat) (refundAmount : Option Int)
    (refundItems : List RefundItemReq) : Except ApiError DB :=
  match findSale db saleId with
  | none => .error (.saleNotFound saleId)
  | some sale =>
    let amount := refundAmount.getD sale.total_amount
    if sale.total_amount < amount then
      .error .refundExceedsTotal
    else
      let items := saleItemsOf db saleId
      let db? :=
        if refundItems.isEmpty then
          .ok (restoreAllItems db items)
        else
          processRefundItems items db refundItems
      match db? with
      | .error e => .error e
      | .ok db =>
        .ok (updateSaleRow db saleId (fun s =>
          { s with status := if amount == sale.total_amount then "refunded"
                             else "partially_refunded" }))

/-! ## Returns (`routes/returns.py`) -/

/-- One entry of the `items` list of `POST /returns`. -/
structure ReturnItemReq where
  product_id : Nat
  quantity : Int
  deriving Repr, DecidableEq

/-- The item loop of `create_return` (`returns.py` lines 114–131): each
requested product must occur in the sale; the per-item refund is the
*original* `SaleItem.unit_price` times the returned quantity (the
quantity itself is never bounded); stock is credited to the product
counter.  Returns the mutated state, the accumulated refund total and the
built `ReturnItem` rows. -/
def processReturnItems (rid : Nat) (saleItems : List SaleItem) :
    DB → Int → List ReturnItem → List ReturnItemReq →
    Except ApiError (DB × Int × List ReturnItem)
  | db, total, acc, [] => .ok (db, total, acc)
  | db, total, acc, r :: rest =>
    match saleItems.find? (fun i => i.product_id == r.product_id) with
    | none => .error (.productNotInSale r.product_id)
    | some orig =>
      match findProduct db r.product_id with
      | none => .error (.productNotFound r.product_id)
      | some _ =>
        let refund := orig.unit_price * r.quantity
        let db := updateProduct db r.product_id
          (fun p => { p with stock_quantity := p.stock_quantity + r.quantity })
        processReturnItems rid saleItems db (total + refund)
          (acc ++ [⟨rid, r.product_id, r.quantity, orig.unit_price, refund⟩]) rest

/-- `POST /returns` (`returns.py` lines 93–160).  `rid`/`cnId` are the
primary keys the insert assigns, `returnNumber`/`cnNumber` the generated
numbers.  The `credit_note` branch reaches
`sale.customer.store_credit = (sale.customer.store_credit or 0) + total`
(line 148); `Customer` has no `store_credit` attribute (the column is
commented out in `models.py`), so that read raises `AttributeError` and
the whole request fails with a 500 after rollback. -/
def createReturn (db : DB) (saleId? : Option Nat) (items : List ReturnItemReq)
    (reason : String) (refundMethod : String) (rid : Nat)
    (returnNumber : String) : Except ApiError DB :=
  match saleId? with
  | none => .error .missingSaleOrItems
  | some saleId =>
    if items.isEmpty then
      .error .missingSaleOrItems
    else
      match findSale db saleId with
      | none => .error (.saleNotFound saleId)
      | some sale =>
        if refundMethod == "credit_note" && sale.customer_id.isNone then
          .error .creditNoteRequiresCustomer
        else
          match processReturnItems rid (saleItemsOf db saleId) db 0 [] items with
          | .error e => .error e
          | .ok (db, total, returnItems) =>
            if refundMethod == "credit_note" then
              .error (.attributeError "store_credit")
            else
              .ok { db with
                returns := db.returns ++
                  [⟨rid, returnNumber, saleId, sale.customer_id, total, reason,
                    "Completed"⟩]
                return_items := db.return_items ++ returnItems }

/-- `DELETE /returns/<id>` (`returns.py` lines 67–91): debit back every
returned quantity from the product counter (no floor), then, for a
`Credit Note Issued` return with an associated note, the route evaluates
`credit_note.status == 'Open' and return_record.customer` — but the
`Return` model has no `customer` relationship, so for an `Open` note the
attribute read raises `AttributeError` and the whole request fails; for a
non-`Open` note the note is voided and the return deleted. -/
def deleteReturn (db : DB) (rid : Nat) : Except ApiError DB :=
  match findReturn db rid with
  | none => .error (.returnNotFound rid)
  | some ret =>
    let items := db.return_items.filter (fun i => i.return_id == rid)
    let db := items.foldl (fun d i => debitProduct d i.product_id i.quantity) db
    let finish : DB → Except ApiError DB := fun d =>
      .ok { d with
        returns := d.returns.filter (fun r => r.id != rid)
        return_items := d.return_items.filter (fun i => i.return_id != rid) }
    if ret.status == "Credit Note Issued" then
      match db.credit_notes.find? (fun c => c.return_id == some rid) with
      | none => finish db
      | some cn =>
        if cn.status == "Open" then
          .error (.attributeError "customer")
        else
          finish { db with credit_notes := db.credit_notes.map (fun c =>
            if c.return_id == some rid then
              { c with status := "Voided", remaining_amount := 0 }
            else c) }
    else
      finish db

/-! ## Purchases (`routes/purchases.py`, `create_purchase`) -/

/-- One entry of the `items` list of `POST /purchases`. -/
structure PurchaseItemReq where
  product_id : Nat
  quantity : Int
  unit_cost : Int
  deriving Repr, DecidableEq

/-- The item loop of `create_purchase` (`purchases.py` lines 43–60):
append the `PurchaseItem` row, and credit stock only when the purchase's
status (lower-cased) is `received` or `completed`. -/
def processPurchaseItems (pid : Nat) (credit : Bool) :
    DB → List PurchaseItemReq → Except ApiError DB
  | db, [] => .ok db
  | db, it :: rest =>
    match findProduct db it.product_id with
    | none => .error (.productNotFound it.product_id)
    | some _ =>
      let db := { db with purchase_items := db.purchase_items ++
        [⟨pid, it.product_id, it.quantity, it.unit_cost, it.quantity * it.unit_cost⟩] }
      let db :=
        if credit then
          updateProduct db it.product_id
            (fun p => { p with stock_quantity := p.stock_quantity + it.quantity })
        else db
      processPurchaseItems pid credit db rest

/-- `POST /purchases` (`purchases.py` lines 23–71).  Status defaults to
`'Pending'`; stock is credited at creation exactly when the status is
`received`/`completed` (case-insensitive). -/
def createPurchase (db : DB) (supplier : String) (total : Int) (status : String)
    (items : List PurchaseItemReq) (pid : Nat) (purchaseNumber : String) :
    Except ApiError DB :=
  if supplier.isEmpty || items.isEmpty then
    .error .missingFields
  else
    let credit := status.toLower == "received" || status.toLower == "completed"
    let db := { db with purchases := db.purchases ++
      [⟨pid, purchaseNumber, supplier, total, status⟩] }
    processPurchaseItems pid credit db items

/-! ## Inventory adjustments (`routes/inventory.py`, `create_inventory_adjustment`) -/

/-- `POST /inventory/adjustments` (`inventory.py` lines 122–184): a
positive quantity is added on `increase`; on `decrease` the route refuses
to take `stock_quantity` below zero. -/
def createInventoryAdjustment (db : DB) (pid : Nat) (adjType : String)
    (quantity : Int) : Except ApiError DB :=
  match findProduct db pid with
  | none => .error (.productNotFound pid)
  | some p =>
    if quantity ≤ 0 then
      .error .quantityNotPositive
    else if adjType == "increase" then
      .ok (updateProduct db pid
        (fun q => { q with stock_quantity := q.stock_quantity + quantity }))
    else if adjType == "decrease" then
      if p.stock_quantity < quantity then
        .error (.decreaseBelowZero p.stock_quantity)
      else
        .ok (updateProduct db pid
          (fun q => { q with stock_quantity := q.stock_quantity - quantity }))
    else
      .error .invalidAdjustmentType

/-! ## Derived quantities used in the claims -/

/-- Total quantity of the given sale-item rows for one product. -/
def itemsQty (items : List SaleItem) (pid : Nat) : Int :=
  ((items.filter (fun i => i.product_id == pid)).map (fun i => i.quantity)).sum

/-- Total quantity listed for one product in a `refund_items` request. -/
def refundListQty (ris : List RefundItemReq) (pid : Nat) : Int :=
  ((ris.filter (fun r => r.product_id == pid)).map (fun r => r.quantity)).sum

/-- Total quantity listed for one product in a return request. -/
def returnListQty (its : List ReturnItemReq) (pid : Nat) : Int :=
  ((its.filter (fun r => r.product_id == pid)).map (fun r => r.quantity)).sum

/-- Cumulative quantity of product `pid` returned against sale `saleId`
across all persisted returns. -/
def returnedQty (db : DB) (saleId pid : Nat) : Int :=
  ((db.returns.filter (fun r => r.sale_id == saleId)).map (fun r =>
    ((db.return_items.filter (fun i => i.return_id == r.id && i.product_id == pid)).map
      (fun i => i.quantity)).sum)).sum

/-- The refund total `create_return` accumulates: for each requested line,
the unit price of the first matching original `SaleItem` times the
returned quantity. -/
def returnTotal (saleItems : List SaleItem) (its : List ReturnItemReq) : Int :=
  (its.map (fun r =>
    (((saleItems.find? (fun i => i.product_id == r.product_id)).map
      (fun i => i.unit_price)).getD 0) * r.quantity)).sum

/-- The `ReturnItem` rows `create_return` builds for a request: one row
per requested line, priced at the first matching original `SaleItem`'s
`unit_price`. -/
def buildReturnRows (rid : Nat) (saleItems : List SaleItem)
    (its : List ReturnItemReq) : List ReturnItem :=
  its.map (fun r =>
    let up := ((saleItems.find? (fun i => i.product_id == r.product_id)).map
      (fun i => i.unit_price)).getD 0
    ⟨rid, r.product_id, r.quantity, up, up * r.quantity⟩)

/-- All stock counters (product rows and batch rows) are non-negative. -/
def nonnegStocks (db : DB) : Prop :=
  (∀ p ∈ db.products, 0 ≤ p.stock_quantity) ∧ (∀ b ∈ db.batches, 0 ≤ b.stock_quantity)

instance (db : DB) : Decidable (nonnegStocks db) := by
  unfold nonnegStocks; infer_instance

/-- `old_items.get(pid, 0)` of `update_sale`: the quantity the Python dict
built from the sale's current items holds for `pid` (last row wins), 0 when
absent. -/
def oldQtyOf (db : DB) (sid : Nat) (pid : Nat) : Int :=
  dictGetD ((saleItemsOf db sid).map (fun i => (i.product_id, i.quantity))) pid

/-- `new_items.get(pid, 0)` of `update_sale`. -/
def newQtyOf (req : UpdateReq) (pid : Nat) : Int :=
  dictGetD (req.items.map (fun i => (i.product_id, i.quantity))) pid

/-- The key set `set(old) | set(new)` that `update_sale` iterates, in the
model's deterministic first-occurrence order. -/
def unionKeys (db : DB) (sid : Nat) (req : UpdateReq) : List Nat :=
  dedupFirst
    (((saleItemsOf db sid).map (fun i => (i.product_id, i.quantity))).map (fun kv => kv.1) ++
      (req.items.map (fun i => (i.product_id, i.quantity))).map (fun kv => kv.1))

/-! ## Concrete states used to evaluate the operations -/

/-- The empty database (fallback for `Except.toOption.getD`). -/
def emptyDB : DB := ⟨[], [], [], [], [], [], [], [], [], []⟩

/-- Claim C1 state: a plain product, id 7, price 1, stock 5. -/
def c1db : DB := ⟨[⟨7, "W", 1, 5, 0, true, false⟩], [], [], [], [], [], [], [], [], []⟩

/-- Sell 5 units of product 7. -/
def c1saleReq : SaleReq := ⟨[⟨7, 5, none, none⟩], none, 5, 0, 0, 5, "cash", "completed"⟩

/-- One sale carrying product 7 on two lines of 3 each. -/
def c1dupReq : SaleReq :=
  ⟨[⟨7, 3, none, none⟩, ⟨7, 3, none, none⟩], none, 6, 0, 0, 6, "cash", "completed"⟩

/-- Sell 5 → return 5 → adjust stock down by 5 → delete the return. -/
def c1trace : Except ApiError DB := do
  let d1 ← createSale c1db c1saleReq 1 "SALE-1" 0
  let d2 ← createReturn d1 (some 1) [⟨7, 5⟩] "damaged" "cash" 1 "RTN-1"
  let d3 ← createInventoryAdjustment d2 7 "decrease" 5
  deleteReturn d3 1

/-- The duplicate-line sale applied to `c1db`. -/
def c1dup : Except ApiError DB := createSale c1db c1dupReq 1 "SALE-1" 0

/-- `c1db` after a guarded stock increase of 3. -/
def c1adj : DB := (createInventoryAdjustment c1db 7 "increase" 3).toOption.getD emptyDB

/-- Claim C2 state: product 11, stock 1, active. -/
def c2db : DB := ⟨[⟨11, "A", 3, 1, 0, true, false⟩], [], [], [], [], [], [], [], [], []⟩

/-- A sale request asking for 2 units of product 11 (stock is 1). -/
def c2req : SaleReq := ⟨[⟨11, 2, none, none⟩], none, 6, 0, 0, 6, "cash", "completed"⟩

/-- Claim C3 state: batch-managed product 4 (stale own counter 10) with
batch 30 holding 10 units. -/
def c3db : DB :=
  ⟨[⟨4, "T", 5, 10, 0, true, true⟩], [⟨30, 4, 10, none⟩], [], [], [], [], [], [], [], []⟩

/-- Sell 4 units of product 4 from batch 30. -/
def c3req : SaleReq := ⟨[⟨4, 4, some 30, none⟩], none, 20, 0, 0, 20, "cash", "completed"⟩

/-- `c3db` after the batch sale. -/
def c3sold : DB := (createSale c3db c3req 1 "SALE-1" 0).toOption.getD emptyDB

/-- `c3sold` after voiding the sale. -/
def c3voided : DB := (voidSale c3sold 1).toOption.getD emptyDB

/-- `c3voided` after additionally refunding the (already voided) sale. -/
def c3refunded : DB := (refundSale c3voided 1 none []).toOption.getD emptyDB

/-- Witness state for the amended C3: product 15 (stock 7), a completed
sale of 2 units at price 2. -/
def c3wdb : DB :=
  ⟨[⟨15, "E", 2, 7, 0, true, false⟩], [], [],
   [⟨1, "SALE-1", none, 4, 0, 0, 4, "cash", "completed", 0⟩],
   [⟨1, 15, none, 2, 2, 4⟩], [], [], [], [], []⟩

/-- Claim C4 state: batch-managed product 2 whose own counter is 0 while
its batch 10 holds 10 units. -/
def c4db : DB :=
  ⟨[⟨2, "Q", 7, 0, 0, true, true⟩], [⟨10, 2, 10, none⟩], [], [], [], [], [], [], [], []⟩

/-- Sell 1 unit of product 2 from batch 10. -/
def c4req : SaleReq := ⟨[⟨2, 1, some 10, none⟩], none, 7, 0, 0, 7, "cash", "completed"⟩

/-- Converse C4 state: batch-managed product 3 whose own counter is 10
while its batch 20 holds only 2 units. -/
def c4dbB : DB :=
  ⟨[⟨3, "R", 7, 10, 0, true, true⟩], [⟨20, 3, 2, none⟩], [], [], [], [], [], [], [], []⟩

/-- Sell 5 units of product 3 from batch 20 (only 2 in the batch). -/
def c4reqB : SaleReq := ⟨[⟨3, 5, some 20, none⟩], none, 35, 0, 0, 35, "cash", "completed"⟩

/-- `c4dbB` after that sale went through. -/
def c4soldB : DB := (createSale c4dbB c4reqB 1 "SALE-1" 0).toOption.getD emptyDB

/-- Claim C5 state: customer 9, her completed sale of 2 units of product 6
at unit price 10. -/
def c5db : DB :=
  ⟨[⟨6, "V", 10, 0, 0, true, false⟩], [], [⟨9, "Ann"⟩],
   [⟨1, "SALE-1", some 9, 20, 0, 0, 20, "cash", "completed", 0⟩],
   [⟨1, 6, none, 2, 10, 20⟩], [], [], [], [], []⟩

/-- Claim C6 state: a completed sale of exactly 1 unit of product 5. -/
def c6db : DB :=
  ⟨[⟨5, "U", 10, 0, 0, true, false⟩], [],
   [], [⟨1, "SALE-1", none, 10, 0, 0, 10, "cash", "completed", 0⟩],
   [⟨1, 5, none, 1, 10, 10⟩], [], [], [], [], []⟩

/-- `c6db` after returning 5 units of the 1 sold. -/
def c6ret : DB :=
  (createReturn c6db (some 1) [⟨5, 5⟩] "worn" "cash" 1 "RTN-1").toOption.getD emptyDB

/-- Claim C7 state: a plain product, id 8, stock 5. -/
def c7db : DB := ⟨[⟨8, "X", 1, 5, 0, true, false⟩], [], [], [], [], [], [], [], [], []⟩

/-- Sell 2 units of product 8. -/
def c7req : SaleReq := ⟨[⟨8, 2, none, none⟩], none, 2, 0, 0, 2, "cash", "completed"⟩

/-- `c7db` after the sale. -/
def c7sold : DB := (createSale c7db c7req 1 "SALE-1" 0).toOption.getD emptyDB

/-- `c7sold` fully refunded (status becomes `refunded`). -/
def c7refunded : DB := (refundSale c7sold 1 none []).toOption.getD emptyDB

/-- The refunded sale voided afterwards. -/
def c7thenVoided : DB := (voidSale c7refunded 1).toOption.getD emptyDB

/-- `c7sold` voided (status becomes `voided`). -/
def c7voided : DB := (voidSale c7sold 1).toOption.getD emptyDB

/-- The voided sale refunded afterwards. -/
def c7thenRefunded : DB := (refundSale c7voided 1 none []).toOption.getD emptyDB

/-- Claim C8 state: a completed sale of 5 units of product 12 at price 4,
total 40. -/
def c8db : DB :=
  ⟨[⟨12, "B", 4, 10, 0, true, false⟩], [], [],
   [⟨1, "SALE-1", none, 40, 0, 0, 40, "cash", "completed", 0⟩],
   [⟨1, 12, none, 5, 4, 20⟩], [], [], [], [], []⟩

/-- Claim C9 state: a completed sale (created at t = 0) of 3 units of
product 13 at price 2. -/
def c9db : DB :=
  ⟨[⟨13, "C", 2, 10, 0, true, false⟩], [], [],
   [⟨1, "SALE-1", none, 6, 0, 0, 6, "cash", "completed", 0⟩],
   [⟨1, 13, none, 3, 2, 6⟩], [], [], [], [], []⟩

/-- Amend the sale to 5 units of product 13 at price 2. -/
def c9req : UpdateReq := ⟨[⟨13, 5, 2⟩], none, 10, 0, 0, 10, none⟩

/-- Claim C10 state: product 14, stock 10, price 5. -/
def c10db : DB := ⟨[⟨14, "D", 5, 10, 0, true, false⟩], [], [], [], [], [], [], [], [], []⟩

/-- One line of 1 unit, but header totals that have nothing to do with the
line (`total_amount = 999` while the only line totals 5). -/
def c10req : SaleReq := ⟨[⟨14, 1, none, none⟩], none, 100, 2, 3, 999, "cash", "completed"⟩

/-- `c10db` after that sale. -/
def c10res : DB := (createSale c10db c10req 1 "SALE-1" 0).toOption.getD emptyDB

/-! ## Basic lemmas about point updates and lookups -/

theorem find_map_pointwise {α : Type} (idf : α → Nat) (f : α → α)
    (hf : ∀ a, idf (f a) = idf a) (q pid : Nat) (l : List α) :
    (l.map (fun a => if idf a == q then f a else a)).find? (fun a => idf a == pid) =
      if pid == q then (l.find? (fun a => idf a == pid)).map f
      else l.find? (fun a => idf a == pid) := by
  induction l with
  | nil => by_cases h : pid = q <;> simp [h]
  | cons a l ih =>
    by_cases hq : idf a = q
    · by_cases hp : idf a = pid
      · have : pid = q := hp ▸ hq
        simp [List.find?, hq, hp, hf, this]
      · by_cases hpq : pid = q
        · simp only [List.map_cons, List.find?]
          rw [if_pos (by exact beq_iff_eq.mpr hq)]
          have h1 : (idf (f a) == pid) = false := by
            simp [hf, hp]
          have h2 : (idf a == pid) = false := by simp [hp]
          simp only [h1, h2]
          rw [ih]
        · simp only [List.map_cons, List.find?]
          rw [if_pos (by exact beq_iff_eq.mpr hq)]
          have h1 : (idf (f a) == pid) = false := by simp [hf, hp]
          have h2 : (idf a == pid) = false := by simp [hp]
          simp only [h1, h2]
          rw [ih]
    · by_cases hp : idf a = pid
      · have hpq : ¬ pid = q := by
          intro h; exact hq (by rw [hp, h])
        simp only [List.map_cons, List.find?]
        rw [if_neg (by simp [hq])]
        have h2 : (idf a == pid) = true := by simp [hp]
        simp only [h2]
        simp [hpq]
      · simp only [List.map_cons, List.find?]
        rw [if_neg (by simp [hq])]
        have h2 : (idf a == pid) = false := by simp [hp]
        simp only [h2]
        rw [ih]

theorem findProduct_updateProduct (db : DB) (q pid : Nat) (f : Product → Product)
    (hf : ∀ p, (f p).id = p.id) :
    findProduct (updateProduct db q f) pid =
      if pid == q then (findProduct db pid).map f else findProduct db pid :=
  find_map_pointwise Product.id f hf q pid db.products

theorem findBatch_updateBatch (db : DB) (q bid : Nat) (f : ProductBatch → ProductBatch)
    (hf : ∀ b, (f b).id = b.id) :
    findBatch (updateBatch db q f) bid =
      if bid == q then (findBatch db bid).map f else findBatch db bid :=
  find_map_pointwise ProductBatch.id f hf q bid db.batches

theorem findSale_updateSaleRow (db : DB) (q sid : Nat) (f : Sale → Sale)
    (hf : ∀ s, (f s).id = s.id) :
    findSale (updateSaleRow db q f) sid =
      if sid == q then (findSale db sid).map f else findSale db sid :=
  find_map_pointwise Sale.id f hf q sid db.sales

/-- Point-updating a product's stock counter, seen through `stockOf`. -/
theorem stockOf_updateProduct_add (db : DB) (q pid : Nat) (c : Int) :
    stockOf (updateProduct db q (fun p => { p with stock_quantity := p.stock_quantity + c })) pid =
      if pid == q then (stockOf db pid).map (fun s => s + c) else stockOf db pid := by
  unfold stockOf
  rw [findProduct_updateProduct db q pid
    (fun p => { p with stock_quantity := p.stock_quantity + c }) (fun p => rfl)]
  by_cases h : pid = q
  · simp [h, Option.map_map]; rfl
  · simp [h]

theorem stockOf_updateProduct_other (db : DB) (q pid : Nat) (f : Product → Product)
    (hf : ∀ p, (f p).id = p.id) (h : pid ≠ q) :
    stockOf (updateProduct db q f) pid = stockOf db pid := by
  unfold stockOf
  rw [findProduct_updateProduct db q pid f hf]
  simp [h]

theorem isSome_findProduct_updateProduct (db : DB) (q pid : Nat) (f : Product → Product)
    (hf : ∀ p, (f p).id = p.id) :
    (findProduct (updateProduct db q f) pid).isSome = (findProduct db pid).isSome := by
  rw [findProduct_updateProduct db q pid f hf]
  by_cases h : pid = q <;> simp [h]

theorem batches_updateProduct (db : DB) (q : Nat) (f : Product → Product) :
    (updateProduct db q f).batches = db.batches := rfl

theorem sales_updateProduct (db : DB) (q : Nat) (f : Product → Product) :
    (updateProduct db q f).sales = db.sales := rfl

theorem sale_items_updateProduct (db : DB) (q : Nat) (f : Product → Product) :
    (updateProduct db q f).sale_items = db.sale_items := rfl

theorem products_updateSaleRow (db : DB) (q : Nat) (f : Sale → Sale) :
    (updateSaleRow db q f).products = db.products := rfl

theorem batches_updateSaleRow (db : DB) (q : Nat) (f : Sale → Sale) :
    (updateSaleRow db q f).batches = db.batches := rfl

theorem stockOf_updateSaleRow (db : DB) (q : Nat) (f : Sale → Sale) (pid : Nat) :
    stockOf (updateSaleRow db q f) pid = stockOf db pid := rfl

theorem batchStockOf_updateSaleRow (db : DB) (q : Nat) (f : Sale → Sale) (bid : Nat) :
    batchStockOf (updateSaleRow db q f) bid = batchStockOf db bid := rfl

/-! ## Lemmas about the guarded credit of a product counter -/

theorem stockOf_creditProduct (db : DB) (q : Nat) (c : Int) (pid : Nat) :
    stockOf (creditProduct db q c) pid =
      if pid == q then (stockOf db pid).map (fun s => s + c) else stockOf db pid := by
  unfold creditProduct
  by_cases hg : (findProduct db q).isSome
  · rw [if_pos hg, stockOf_updateProduct_add]
  · rw [if_neg hg]
    by_cases h : pid = q
    · subst h
      have : stockOf db pid = none := by
        unfold stockOf
        cases hfp : findProduct db pid
        · rfl
        · rw [hfp] at hg; simp at hg
      simp [this]
    · simp [h]

theorem batches_creditProduct (db : DB) (q : Nat) (c : Int) :
    (creditProduct db q c).batches = db.batches := by
  unfold creditProduct
  by_cases hg : (findProduct db q).isSome <;> simp [hg, batches_updateProduct]

theorem sales_creditProduct (db : DB) (q : Nat) (c : Int) :
    (creditProduct db q c).sales = db.sales := by
  unfold creditProduct
  by_cases hg : (findProduct db q).isSome <;> simp [hg, sales_updateProduct]

theorem sale_items_creditProduct (db : DB) (q : Nat) (c : Int) :
    (creditProduct db q c).sale_items = db.sale_items := by
  unfold creditProduct
  by_cases hg : (findProduct db q).isSome <;> simp [hg, sale_items_updateProduct]

theorem isSome_findProduct_creditProduct (db : DB) (q : Nat) (c : Int) (pid : Nat) :
    (findProduct (creditProduct db q c) pid).isSome = (findProduct db pid).isSome := by
  unfold creditProduct
  by_cases hg : (findProduct db q).isSome
  · rw [if_pos hg, isSome_findProduct_updateProduct]
    intro p; rfl
  · rw [if_neg hg]

/-! ## Lemmas about the per-product sums -/

theorem itemsQty_nil (pid : Nat) : itemsQty [] pid = 0 := rfl

theorem itemsQty_cons (i : SaleItem) (rest : List SaleItem) (pid : Nat) :
    itemsQty (i :: rest) pid =
      (if i.product_id == pid then i.quantity else 0) + itemsQty rest pid := by
  unfold itemsQty
  by_cases h : i.product_id = pid <;> simp [List.filter_cons, h]

theorem refundListQty_cons (r : RefundItemReq) (rest : List RefundItemReq) (pid : Nat) :
    refundListQty (r :: rest) pid =
      (if r.product_id == pid then r.quantity else 0) + refundListQty rest pid := by
  unfold refundListQty
  by_cases h : r.product_id = pid <;> simp [List.filter_cons, h]

theorem returnListQty_cons (r : ReturnItemReq) (rest : List ReturnItemReq) (pid : Nat) :
    returnListQty (r :: rest) pid =
      (if r.product_id == pid then r.quantity else 0) + returnListQty rest pid := by
  unfold returnListQty
  by_cases h : r.product_id = pid <;> simp [List.filter_cons, h]

/-! ## Lemmas about `restoreAllItems` -/

theorem restoreAllItems_cons (db : DB) (i : SaleItem) (rest : List SaleItem) :
    restoreAllItems db (i :: rest) =
      restoreAllItems (creditProduct db i.product_id i.quantity) rest := rfl

theorem stockOf_restoreAllItems (items : List SaleItem) (db : DB) (pid : Nat) :
    stockOf (restoreAllItems db items) pid =
      (stockOf db pid).map (fun s => s + itemsQty items pid) := by
  induction items generalizing db with
  | nil =>
    cases h : stockOf db pid <;> simp [restoreAllItems, itemsQty_nil, h]
  | cons i rest ih =>
    rw [restoreAllItems_cons, ih, stockOf_creditProduct, itemsQty_cons]
    by_cases h : pid = i.product_id
    · cases hs : stockOf db pid <;> simp [h, hs, add_assoc]
    · have h2 : (i.product_id == pid) = false := by
        simp; intro hc; exact h hc.symm
      simp [h, h2]

theorem batches_restoreAllItems (items : List SaleItem) (db : DB) :
    (restoreAllItems db items).batches = db.batches := by
  induction items generalizing db with
  | nil => rfl
  | cons i rest ih => rw [restoreAllItems_cons, ih, batches_creditProduct]

theorem sales_restoreAllItems (items : List SaleItem) (db : DB) :
    (restoreAllItems db items).sales = db.sales := by
  induction items generalizing db with
  | nil => rfl
  | cons i rest ih => rw [restoreAllItems_cons, ih, sales_creditProduct]

theorem sale_items_restoreAllItems (items : List SaleItem) (db : DB) :
    (restoreAllItems db items).sale_items = db.sale_items := by
  induction items generalizing db with
  | nil => rfl
  | cons i rest ih => rw [restoreAllItems_cons, ih, sale_items_creditProduct]

/-! ## Lemmas about `dedupFirst` -/

theorem mem_dedupFirstAux (x : Nat) :
    ∀ (l seen : List Nat), x ∈ dedupFirstAux seen l ↔ (x ∈ l ∧ x ∉ seen) := by
  intro l
  induction l with
  | nil => intro seen; simp [dedupFirstAux]
  | cons k rest ih =>
    intro seen
    by_cases hk : k ∈ seen
    · rw [dedupFirstAux, if_pos hk, ih]
      constructor
      · rintro ⟨h1, h2⟩; exact ⟨List.mem_cons_of_mem _ h1, h2⟩
      · rintro ⟨h1, h2⟩
        rcases List.mem_cons.mp h1 with h | h
        · exact absurd (h ▸ hk) h2
        · exact ⟨h, h2⟩
    · rw [dedupFirstAux, if_neg hk]
      constructor
      · intro h
        rcases List.mem_cons.mp h with h | h
        · exact ⟨h ▸ List.mem_cons_self _ _, h ▸ hk⟩
        · rcases (ih (k :: seen)).mp h with ⟨h1, h2⟩
          refine ⟨List.mem_cons_of_mem _ h1, fun hc => h2 (List.mem_cons_of_mem _ hc)⟩
      · rintro ⟨h1, h2⟩
        rcases List.mem_cons.mp h1 with h | h
        · exact h ▸ List.mem_cons_self _ _
        · by_cases hxk : x = k
          · exact hxk ▸ List.mem_cons_self _ _
          · exact List.mem_cons_of_mem _ ((ih (k :: seen)).mpr
              ⟨h, fun hc => (List.mem_cons.mp hc).elim hxk h2⟩)

theorem mem_dedupFirst (l : List Nat) (x : Nat) : x ∈ dedupFirst l ↔ x ∈ l := by
  unfold dedupFirst
  rw [mem_dedupFirstAux]
  simp

theorem nodup_dedupFirstAux : ∀ (l seen : List Nat), (dedupFirstAux seen l).Nodup := by
  intro l
  induction l with
  | nil => intro seen; simp [dedupFirstAux]
  | cons k rest ih =>
    intro seen
    by_cases hk : k ∈ seen
    · rw [dedupFirstAux, if_pos hk]; exact ih seen
    · rw [dedupFirstAux, if_neg hk]
      refine List.nodup_cons.mpr ⟨fun hc => ?_, ih (k :: seen)⟩
      exact ((mem_dedupFirstAux k rest (k :: seen)).mp hc).2 (List.mem_cons_self _ _)

theorem nodup_dedupFirst (l : List Nat) : (dedupFirst l).Nodup :=
  nodup_dedupFirstAux l []

/-! ## Lemmas about the partial-refund item loop -/

theorem processRefundItems_ok (saleItems : List SaleItem) :
    ∀ (ris : List RefundItemReq) (db db' : DB),
      processRefundItems saleItems db ris = .ok db' →
      (∀ pid, stockOf db' pid =
        (stockOf db pid).map (fun s => s + refundListQty ris pid)) ∧
      db'.batches = db.batches ∧ db'.sales = db.sales ∧
      db'.sale_items = db.sale_items := by
  intro ris
  induction ris with
  | nil =>
    intro db db' h
    cases h
    refine ⟨fun pid => ?_, rfl, rfl, rfl⟩
    unfold refundListQty
    cases stockOf db pid <;> simp
  | cons r rest ih =>
    intro db db' h
    simp only [processRefundItems] at h
    cases hfind : saleItems.find? (fun i => i.product_id == r.product_id) with
    | none => rw [hfind] at h; cases h
    | some si =>
      simp only [hfind] at h
      by_cases hq : si.quantity < r.quantity
      · rw [if_pos hq] at h; cases h
      · rw [if_neg hq] at h
        obtain ⟨hstock, hb, hs, hsi⟩ := ih _ _ h
        refine ⟨fun pid => ?_, by rw [hb, batches_creditProduct],
          by rw [hs, sales_creditProduct], by rw [hsi, sale_items_creditProduct]⟩
        rw [hstock pid, stockOf_creditProduct, refundListQty_cons]
        by_cases hp : pid = r.product_id
        · cases hst : stockOf db pid <;> simp [hp, hst, add_assoc]
        · have h2 : (r.product_id == pid) = false := by
            simp; intro hc; exact hp hc.symm
          simp [hp, h2]

theorem processRefundItems_progress (saleItems : List SaleItem) :
    ∀ (ris : List RefundItemReq) (db : DB),
      (∀ r ∈ ris, ∃ si,
        saleItems.find? (fun i => i.product_id == r.product_id) = some si ∧
        r.quantity ≤ si.quantity) →
      ∃ db', processRefundItems saleItems db ris = .ok db' := by
  intro ris
  induction ris with
  | nil => intro db _; exact ⟨db, rfl⟩
  | cons r rest ih =>
    intro db hv
    obtain ⟨si, hfind, hle⟩ := hv r (List.mem_cons_self _ _)
    obtain ⟨db', h⟩ := ih (creditProduct db r.product_id r.quantity)
      (fun r hr => hv r (List.mem_cons_of_mem _ hr))
    refine ⟨db', ?_⟩
    simp only [processRefundItems, hfind]
    rw [if_neg (not_lt.mpr hle)]
    exact h

theorem processRefundItems_sound (saleItems : List SaleItem) :
    ∀ (ris : List RefundItemReq) (db db' : DB),
      processRefundItems saleItems db ris = .ok db' →
      ∀ r ∈ ris, ∃ si,
        saleItems.find? (fun i => i.product_id == r.product_id) = some si ∧
        r.quantity ≤ si.quantity := by
  intro ris
  induction ris with
  | nil => intro db db' _ r hr; cases hr
  | cons r0 rest ih =>
    intro db db' h r hr
    simp only [processRefundItems] at h
    cases hfind : saleItems.find? (fun i => i.product_id == r0.product_id) with
    | none => rw [hfind] at h; cases h
    | some si =>
      simp only [hfind] at h
      by_cases hq : si.quantity < r0.quantity
      · rw [if_pos hq] at h; cases h
      · rw [if_neg hq] at h
        rcases List.mem_cons.mp hr with h1 | h1
        · subst h1; exact ⟨si, hfind, not_lt.mp hq⟩
        · exact ih _ _ h r h1

/-! ## Lemmas about the return item loop -/

theorem returnTotal_nil (saleItems : List SaleItem) : returnTotal saleItems [] = 0 := rfl

theorem returnTotal_cons (saleItems : List SaleItem) (r : ReturnItemReq)
    (rest : List ReturnItemReq) :
    returnTotal saleItems (r :: rest) =
      (((saleItems.find? (fun i => i.product_id == r.product_id)).map
        (fun i => i.unit_price)).getD 0) * r.quantity + returnTotal saleItems rest := by
  unfold returnTotal
  simp

theorem processReturnItems_ok (rid : Nat) (saleItems : List SaleItem) :
    ∀ (its : List ReturnItemReq) (db db' : DB) (total total' : Int)
      (acc acc' : List ReturnItem),
      processReturnItems rid saleItems db total acc its = .ok (db', total', acc') →
      (∀ pid, stockOf db' pid =
        (stockOf db pid).map (fun s => s + returnListQty its pid)) ∧
      total' = total + returnTotal saleItems its ∧
      acc' = acc ++ buildReturnRows rid saleItems its ∧
      db'.batches = db.batches ∧ db'.sales = db.sales ∧
      db'.sale_items = db.sale_items ∧ db'.returns = db.returns ∧
      db'.return_items = db.return_items := by
  intro its
  induction its with
  | nil =>
    intro db db' total total' acc acc' h
    cases h
    refine ⟨fun pid => ?_, by simp [returnTotal_nil], by simp [buildReturnRows],
      rfl, rfl, rfl, rfl, rfl⟩
    unfold returnListQty
    cases stockOf db pid <;> simp
  | cons r rest ih =>
    intro db db' total total' acc acc' h
    simp only [processReturnItems] at h
    cases hfind : saleItems.find? (fun i => i.product_id == r.product_id) with
    | none => rw [hfind] at h; cases h
    | some orig =>
      simp only [hfind] at h
      cases hfp : findProduct db r.product_id with
      | none => simp only [hfp] at h; cases h
      | some p =>
        simp only [hfp] at h
        obtain ⟨hstock, htot, hacc, hb, hs, hsi, hret, hreti⟩ := ih _ _ _ _ _ _ h
        refine ⟨fun pid => ?_, ?_, ?_,
          by rw [hb, batches_updateProduct], by rw [hs, sales_updateProduct],
          by rw [hsi, sale_items_updateProduct], by rw [hret]; rfl,
          by rw [hreti]; rfl⟩
        · rw [hstock pid, stockOf_updateProduct_add, returnListQty_cons]
          by_cases hp : pid = r.product_id
          · cases hst : stockOf db pid <;> simp [hp, hst, add_assoc]
          · have h2 : (r.product_id == pid) = false := by
              simp; intro hc; exact hp hc.symm
            simp [hp, h2]
        · rw [htot, returnTotal_cons, hfind]
          simp [add_assoc]
        · rw [hacc]
          simp [buildReturnRows, hfind]

theorem processReturnItems_progress (rid : Nat) (saleItems : List SaleItem) :
    ∀ (its : List ReturnItemReq) (db : DB) (total : Int) (acc : List ReturnItem),
      (∀ r ∈ its,
        (saleItems.find? (fun i => i.product_id == r.product_id)).isSome ∧
        (findProduct db r.product_id).isSome) →
      ∃ out, processReturnItems rid saleItems db total acc its = .ok out := by
  intro its
  induction its with
  | nil => intro db total acc _; exact ⟨(db, total, acc), rfl⟩
  | cons r rest ih =>
    intro db total acc hv
    obtain ⟨hfind, hfp⟩ := hv r (List.mem_cons_self _ _)
    cases hfind2 : saleItems.find? (fun i => i.product_id == r.product_id) with
    | none => rw [hfind2] at hfind; simp at hfind
    | some orig =>
      cases hfp2 : findProduct db r.product_id with
      | none => rw [hfp2] at hfp; simp at hfp
      | some p =>
        obtain ⟨out, h⟩ := ih
          (updateProduct db r.product_id
            (fun p => { p with stock_quantity := p.stock_quantity + r.quantity }))
          (total + orig.unit_price * r.quantity)
          (acc ++ [⟨rid, r.product_id, r.quantity, orig.unit_price,
            orig.unit_price * r.quantity⟩])
          (fun r' hr' => ⟨(hv r' (List.mem_cons_of_mem _ hr')).1, by
            rw [isSome_findProduct_updateProduct db r.product_id r'.product_id
              (fun p => { p with stock_quantity := p.stock_quantity + r.quantity })
              (fun p => rfl)]
            exact (hv r' (List.mem_cons_of_mem _ hr')).2⟩)
        refine ⟨out, ?_⟩
        simp only [processReturnItems, hfind2, hfp2]
        exact h

/-! ## Lemmas about sale-creation validation -/

theorem validateItems_insufficient (db : DB) :
    ∀ items : List SaleItemReq,
      (∀ it ∈ items, ∃ p, findProduct db it.product_id = some p ∧ p.is_active = true) →
      (∃ it ∈ items, ∃ p, findProduct db it.product_id = some p ∧
        p.stock_quantity < it.quantity) →
      ∃ it ∈ items, ∃ p, findProduct db it.product_id = some p ∧
        p.stock_quantity < it.quantity ∧
        validateItems db items =
          .error (.insufficientStock p.name p.stock_quantity it.quantity) := by
  intro items
  induction items with
  | nil => rintro _ ⟨it, hit, _⟩; cases hit
  | cons it0 rest ih =>
    rintro hwf ⟨it, hit, p, hp, hbad⟩
    obtain ⟨p0, hp0, hact⟩ := hwf it0 (List.mem_cons_self _ _)
    by_cases h0 : p0.stock_quantity < it0.quantity
    · refine ⟨it0, List.mem_cons_self _ _, p0, hp0, h0, ?_⟩
      simp only [validateItems, hp0, hact]
      simp [h0]
    · have hitrest : it ∈ rest := by
        rcases List.mem_cons.mp hit with h | h
        · subst h; rw [hp0] at hp; cases hp; exact absurd hbad h0
        · exact h
      obtain ⟨it', hit', p', hp', hbad', heq⟩ :=
        ih (fun i hi => hwf i (List.mem_cons_of_mem _ hi))
          ⟨it, hitrest, p, hp, hbad⟩
      refine ⟨it', List.mem_cons_of_mem _ hit', p', hp', hbad', ?_⟩
      simp only [validateItems, hp0, hact]
      simp [h0, heq]

theorem createSale_error_of_validate (db : DB) (req : SaleReq) (sid : Nat)
    (sn : String) (now : Int) (e : ApiError) (hne : req.items ≠ [])
    (h : validateItems db req.items = .error e) :
    createSale db req sid sn now = .error e := by
  unfold createSale
  have hempty : req.items.isEmpty = false := by
    cases hitems : req.items
    · exact absurd hitems hne
    · rfl
  rw [hempty, h]
  rfl

/-! ## Lemmas about the amendment delta loop -/

theorem applyDeltas_ok (oldQ newQ : Nat → Int) :
    ∀ (keys : List Nat) (db db' : DB), keys.Nodup →
      applyDeltas oldQ newQ db keys = .ok db' →
      (∀ pid, stockOf db' pid =
        if pid ∈ keys then (stockOf db pid).map (fun s => s + (oldQ pid - newQ pid))
        else stockOf db pid) ∧
      db'.batches = db.batches ∧ db'.sales = db.sales ∧
      db'.sale_items = db.sale_items := by
  intro keys
  induction keys with
  | nil =>
    intro db db' _ h
    cases h
    exact ⟨fun pid => by simp, rfl, rfl, rfl⟩
  | cons k rest ih =>
    intro db db' hnd h
    obtain ⟨hk, hndr⟩ := List.nodup_cons.mp hnd
    simp only [applyDeltas] at h
    cases hfp : findProduct db k with
    | none =>
      rw [hfp] at h
      obtain ⟨hstock, hb, hs, hsi⟩ := ih db db' hndr h
      refine ⟨fun pid => ?_, hb, hs, hsi⟩
      rw [hstock pid]
      by_cases hpk : pid = k
      · subst hpk
        have hnone : stockOf db pid = none := by
          unfold stockOf; rw [hfp]; rfl
        simp [hk, hnone]
      · simp [hpk, List.mem_cons]
    | some p =>
      simp only [hfp] at h
      by_cases hbad : oldQ k - newQ k < 0 ∧ p.stock_quantity < -(oldQ k - newQ k)
      · rw [if_pos hbad] at h; cases h
      · rw [if_neg hbad] at h
        obtain ⟨hstock, hb, hs, hsi⟩ := ih _ db' hndr h
        refine ⟨fun pid => ?_, by rw [hb, batches_updateProduct],
          by rw [hs, sales_updateProduct], by rw [hsi, sale_items_updateProduct]⟩
        rw [hstock pid, stockOf_updateProduct_add]
        by_cases hpk : pid = k
        · subst hpk; simp [hk]
        · have h2 : (pid == k) = false := by simp [hpk]
          simp [h2, hpk, List.mem_cons]

theorem applyDeltas_progress (oldQ newQ : Nat → Int) :
    ∀ (keys : List Nat) (db : DB), keys.Nodup →
      (∀ k ∈ keys, ∀ p, findProduct db k = some p →
        ¬(oldQ k - newQ k < 0 ∧ p.stock_quantity < -(oldQ k - newQ k))) →
      ∃ db', applyDeltas oldQ newQ db keys = .ok db' := by
  intro keys
  induction keys with
  | nil => intro db _ _; exact ⟨db, rfl⟩
  | cons k rest ih =>
    intro db hnd hv
    obtain ⟨hk, hndr⟩ := List.nodup_cons.mp hnd
    cases hfp : findProduct db k with
    | none =>
      obtain ⟨db', h⟩ := ih db hndr (fun k' hk' => hv k' (List.mem_cons_of_mem _ hk'))
      exact ⟨db', by simp only [applyDeltas, hfp]; exact h⟩
    | some p =>
      have hgood := hv k (List.mem_cons_self _ _) p hfp
      obtain ⟨db', h⟩ := ih
        (updateProduct db k
          (fun q => { q with stock_quantity := q.stock_quantity + (oldQ k - newQ k) }))
        hndr
        (fun k' hk' p' hp' => by
          have hne : k' ≠ k := fun hc => hk (hc ▸ hk')
          rw [findProduct_updateProduct db k k'
            (fun q => { q with stock_quantity := q.stock_quantity + (oldQ k - newQ k) })
            (fun q => rfl)] at hp'
          rw [if_neg (by simp [hne]) ] at hp'
          exact hv k' (List.mem_cons_of_mem _ hk') p' hp')
      refine ⟨db', ?_⟩
      simp only [applyDeltas, hfp]
      rw [if_neg hgood]
      exact h

theorem applyDeltas_sound (oldQ newQ : Nat → Int) :
    ∀ (keys : List Nat) (db db' : DB), keys.Nodup →
      applyDeltas oldQ newQ db keys = .ok db' →
      ∀ k ∈ keys, ∀ p, findProduct db k = some p →
        ¬(oldQ k - newQ k < 0 ∧ p.stock_quantity < -(oldQ k - newQ k)) := by
  intro keys
  induction keys with
  | nil => intro db db' _ _ k hk; cases hk
  | cons k0 rest ih =>
    intro db db' hnd h k hk p hp
    obtain ⟨hk0, hndr⟩ := List.nodup_cons.mp hnd
    simp only [applyDeltas] at h
    cases hfp : findProduct db k0 with
    | none =>
      rw [hfp] at h
      rcases List.mem_cons.mp hk with h1 | h1
      · subst h1; rw [hfp] at hp; cases hp
      · exact ih db db' hndr h k h1 p hp
    | some p0 =>
      simp only [hfp] at h
      by_cases hbad : oldQ k0 - newQ k0 < 0 ∧ p0.stock_quantity < -(oldQ k0 - newQ k0)
      · rw [if_pos hbad] at h; cases h
      · rw [if_neg hbad] at h
        rcases List.mem_cons.mp hk with h1 | h1
        · subst h1; rw [hfp] at hp; cases hp; exact hbad
        · have hne : k ≠ k0 := fun hc => hk0 (hc ▸ h1)
          refine ih _ db' hndr h k h1 p ?_
          rw [findProduct_updateProduct db k0 k
            (fun q => { q with stock_quantity := q.stock_quantity + (oldQ k0 - newQ k0) })
            (fun q => rfl)]
          rw [if_neg (by simp [hne])]
          exact hp

/-! ## Row lookup under unique primary keys -/

theorem find_of_mem_nodup_ids {α : Type} (idf : α → Nat) :
    ∀ (l : List α), (l.map idf).Nodup → ∀ a ∈ l,
      l.find? (fun x => idf x == idf a) = some a := by
  intro l
  induction l with
  | nil => intro _ a ha; cases ha
  | cons b rest ih =>
    intro hnd a ha
    rw [List.map_cons] at hnd
    obtain ⟨hb, hndr⟩ := List.nodup_cons.mp hnd
    rcases List.mem_cons.mp ha with h | h
    · subst h
      simp [List.find?]
    · have hne : idf b ≠ idf a := by
        intro hc
        exact hb (hc ▸ List.mem_map_of_mem idf h)
      rw [List.find?]
      have : (idf b == idf a) = false := by simp [hne]
      rw [this]
      exact ih hndr a h

/-- With unique product ids, every product row is what `findProduct`
returns for its id. -/
theorem findProduct_of_mem_nodup (db : DB)
    (hnd : (db.products.map Product.id).Nodup) :
    ∀ p ∈ db.products, findProduct db p.id = some p :=
  fun p hp => find_of_mem_nodup_ids Product.id db.products hnd p hp

/-! ## Preservation of non-negative product stocks -/

theorem nonneg_products_updateProduct (db : DB) (q : Nat) (f : Product → Product)
    (h : ∀ p ∈ db.products, 0 ≤ p.stock_quantity)
    (hf : ∀ p ∈ db.products, p.id = q → 0 ≤ (f p).stock_quantity) :
    ∀ p ∈ (updateProduct db q f).products, 0 ≤ p.stock_quantity := by
  intro p' hp'
  unfold updateProduct at hp'
  simp only [List.mem_map] at hp'
  obtain ⟨p, hp, heq⟩ := hp'
  subst heq
  by_cases hid : p.id = q
  · simp only [hid, beq_self_eq_true, if_true]
    exact hf p hp hid
  · rw [if_neg (by simp [hid])]
    exact h p hp

theorem nonneg_products_creditProduct (db : DB) (q : Nat) (c : Int) (hc : 0 ≤ c)
    (h : ∀ p ∈ db.products, 0 ≤ p.stock_quantity) :
    ∀ p ∈ (creditProduct db q c).products, 0 ≤ p.stock_quantity := by
  unfold creditProduct
  by_cases hg : (findProduct db q).isSome
  · rw [if_pos hg]
    exact nonneg_products_updateProduct db q _ h (fun p hp _ => add_nonneg (h p hp) hc)
  · rw [if_neg hg]; exact h

theorem nonneg_products_restoreAllItems :
    ∀ (items : List SaleItem) (db : DB), (∀ i ∈ items, 0 ≤ i.quantity) →
      (∀ p ∈ db.products, 0 ≤ p.stock_quantity) →
      ∀ p ∈ (restoreAllItems db items).products, 0 ≤ p.stock_quantity := by
  intro items
  induction items with
  | nil => intro db _ h; exact h
  | cons i rest ih =>
    intro db hq h
    rw [restoreAllItems_cons]
    exact ih _ (fun j hj => hq j (List.mem_cons_of_mem _ hj))
      (nonneg_products_creditProduct db i.product_id i.quantity
        (hq i (List.mem_cons_self _ _)) h)

theorem nonneg_products_processRefundItems (saleItems : List SaleItem) :
    ∀ (ris : List RefundItemReq) (db db' : DB), (∀ r ∈ ris, 0 ≤ r.quantity) →
      processRefundItems saleItems db ris = .ok db' →
      (∀ p ∈ db.products, 0 ≤ p.stock_quantity) →
      ∀ p ∈ db'.products, 0 ≤ p.stock_quantity := by
  intro ris
  induction ris with
  | nil => intro db db' _ h hn; cases h; exact hn
  | cons r rest ih =>
    intro db db' hq h hn
    simp only [processRefundItems] at h
    cases hfind : saleItems.find? (fun i => i.product_id == r.product_id) with
    | none => rw [hfind] at h; cases h
    | some si =>
      simp only [hfind] at h
      by_cases hlt : si.quantity < r.quantity
      · rw [if_pos hlt] at h; cases h
      · rw [if_neg hlt] at h
        exact ih _ _ (fun j hj => hq j (List.mem_cons_of_mem _ hj)) h
          (nonneg_products_creditProduct db r.product_id r.quantity
            (hq r (List.mem_cons_self _ _)) hn)

theorem nonneg_products_processReturnItems (rid : Nat) (saleItems : List SaleItem) :
    ∀ (its : List ReturnItemReq) (db db' : DB) (total total' : Int)
      (acc acc' : List ReturnItem), (∀ r ∈ its, 0 ≤ r.quantity) →
      processReturnItems rid saleItems db total acc its = .ok (db', total', acc') →
      (∀ p ∈ db.products, 0 ≤ p.stock_quantity) →
      ∀ p ∈ db'.products, 0 ≤ p.stock_quantity := by
  intro its
  induction its with
  | nil => intro db db' total total' acc acc' _ h hn; cases h; exact hn
  | cons r rest ih =>
    intro db db' total total' acc acc' hq h hn
    simp only [processReturnItems] at h
    cases hfind : saleItems.find? (fun i => i.product_id == r.product_id) with
    | none => rw [hfind] at h; cases h
    | some orig =>
      simp only [hfind] at h
      cases hfp : findProduct db r.product_id with
      | none => simp only [hfp] at h; cases h
      | some p =>
        simp only [hfp] at h
        exact ih _ _ _ _ _ _ (fun j hj => hq j (List.mem_cons_of_mem _ hj)) h
          (nonneg_products_updateProduct db r.product_id _ hn
            (fun p0 hp0 _ => add_nonneg (hn p0 hp0) (hq r (List.mem_cons_self _ _))))

theorem nonneg_products_processPurchaseItems (pidp : Nat) (credit : Bool) :
    ∀ (items : List PurchaseItemReq) (db db' : DB), (∀ it ∈ items, 0 ≤ it.quantity) →
      processPurchaseItems pidp credit db items = .ok db' →
      (∀ p ∈ db.products, 0 ≤ p.stock_quantity) →
      ∀ p ∈ db'.products, 0 ≤ p.stock_quantity := by
  intro items
  induction items with
  | nil => intro db db' _ h hn; cases h; exact hn
  | cons it rest ih =>
    intro db db' hq h hn
    simp only [processPurchaseItems] at h
    cases hfp : findProduct db it.product_id with
    | none => rw [hfp] at h; cases h
    | some p =>
      simp only [hfp] at h
      by_cases hcr : credit = true
      · rw [if_pos hcr] at h
        refine ih _ _ (fun j hj => hq j (List.mem_cons_of_mem _ hj)) h ?_
        exact nonneg_products_updateProduct _ it.product_id _ hn
          (fun p0 hp0 _ => add_nonneg (hn p0 hp0) (hq it (List.mem_cons_self _ _)))
      · rw [if_neg hcr] at h
        exact ih _ _ (fun j hj => hq j (List.mem_cons_of_mem _ hj)) h hn

theorem batches_processPurchaseItems (pidp : Nat) (credit : Bool) :
    ∀ (items : List PurchaseItemReq) (db db' : DB),
      processPurchaseItems pidp credit db items = .ok db' →
      db'.batches = db.batches := by
  intro items
  induction items with
  | nil => intro db db' h; cases h; rfl
  | cons it rest ih =>
    intro db db' h
    simp only [processPurchaseItems] at h
    cases hfp : findProduct db it.product_id with
    | none => rw [hfp] at h; cases h
    | some p =>
      simp only [hfp] at h
      by_cases hcr : credit = true
      · rw [if_pos hcr] at h
        rw [ih _ _ h]
        rfl
      · rw [if_neg hcr] at h
        rw [ih _ _ h]

/-! ## `processItems` leaves the sale headers unchanged -/

theorem sales_processItems (sid : Nat) :
    ∀ (items : List SaleItemReq) (db db' : DB),
      processItems sid db items = .ok db' → db'.sales = db.sales := by
  intro items
  induction items with
  | nil => intro db db' h; cases h; rfl
  | cons it rest ih =>
    intro db db' h
    simp only [processItems] at h
    cases hfp : findProduct db it.product_id with
    | none => rw [hfp] at h; cases h
    | some p =>
      simp only [hfp] at h
      by_cases hb : p.batch_management_enabled = true
      · rw [if_pos hb] at h
        cases hbid : it.batch_id with
        | none => rw [hbid] at h; cases h
        | some bid =>
          simp only [hbid] at h
          cases hfb : findBatch db bid with
          | none => simp only [hfb] at h; cases h
          | some b =>
            simp only [hfb] at h
            by_cases hpb : (b.product_id == p.id) = true
            · rw [if_pos hpb] at h
              rw [ih _ _ h]
              rfl
            · rw [if_neg hpb] at h; cases h
      · rw [if_neg hb] at h
        rw [ih _ _ h]
        rfl

/-! ## Operation-level characterizations -/

theorem findSale_eq_of_sales_eq (db db' : DB) (h : db'.sales = db.sales) (sid : Nat) :
    findSale db' sid = findSale db sid := by
  unfold findSale; rw [h]

theorem sale_items_updateSaleRow (db : DB) (q : Nat) (f : Sale → Sale) :
    (updateSaleRow db q f).sale_items = db.sale_items := rfl

theorem saleItemsOf_eq_of_sale_items_eq (db db' : DB)
    (h : db'.sale_items = db.sale_items) (sid : Nat) :
    saleItemsOf db' sid = saleItemsOf db sid := by
  unfold saleItemsOf; rw [h]

/-- `void_sale` on a sale that is not yet voided: succeeds, credits every
item's quantity to its product counter, leaves batches and sale items
untouched, and flips the status. -/
theorem voidSale_ok (db : DB) (sid : Nat) (sale : Sale)
    (hfind : findSale db sid = some sale) (hst : sale.status ≠ "voided") :
    ∃ db', voidSale db sid = .ok db' ∧
      (∀ pid, stockOf db' pid =
        (stockOf db pid).map (fun s => s + itemsQty (saleItemsOf db sid) pid)) ∧
      db'.batches = db.batches ∧
      db'.sale_items = db.sale_items ∧
      findSale db' sid = some { sale with status := "voided" } := by
  unfold voidSale
  simp only [hfind]
  rw [if_neg (by simp [hst])]
  refine ⟨_, rfl, fun pid => ?_, ?_, ?_, ?_⟩
  · rw [stockOf_updateSaleRow, stockOf_restoreAllItems]
  · rw [batches_updateSaleRow, batches_restoreAllItems]
  · rw [sale_items_updateSaleRow, sale_items_restoreAllItems]
  · rw [findSale_updateSaleRow _ _ sid (fun s => { s with status := "voided" })
      (fun s => rfl)]
    rw [if_pos (by simp)]
    rw [findSale_eq_of_sales_eq _ _ (sales_restoreAllItems _ _) sid, hfind]
    rfl

/-- `void_sale` on an already-voided sale fails with the state error. -/
theorem voidSale_error_voided (db : DB) (sid : Nat) (sale : Sale)
    (hfind : findSale db sid = some sale) (hst : sale.status = "voided") :
    voidSale db sid = .error .alreadyVoided := by
  unfold voidSale
  simp only [hfind]
  rw [if_pos (by simp [hst])]

/-- `refund_sale` with no `refund_amount` and no `refund_items`: the full
refund always succeeds — the sale's current status is never inspected —
restores every item's quantity to the product counter and sets the status
to `refunded`. -/
theorem refundSale_ok_full (db : DB) (sid : Nat) (sale : Sale)
    (hfind : findSale db sid = some sale) :
    ∃ db', refundSale db sid none [] = .ok db' ∧
      (∀ pid, stockOf db' pid =
        (stockOf db pid).map (fun s => s + itemsQty (saleItemsOf db sid) pid)) ∧
      db'.batches = db.batches ∧
      db'.sale_items = db.sale_items ∧
      findSale db' sid = some { sale with status := "refunded" } := by
  unfold refundSale
  simp only [hfind, Option.getD_none]
  rw [if_neg (lt_irrefl sale.total_amount)]
  simp only [List.isEmpty_nil, if_pos rfl]
  refine ⟨_, rfl, fun pid => ?_, ?_, ?_, ?_⟩
  · rw [stockOf_updateSaleRow, stockOf_restoreAllItems]
  · rw [batches_updateSaleRow, batches_restoreAllItems]
  · rw [sale_items_updateSaleRow, sale_items_restoreAllItems]
  · rw [findSale_updateSaleRow _ _ sid
      (fun s => { s with status := if (sale.total_amount == sale.total_amount) = true
                  then "refunded" else "partially_refunded" }) (fun s => rfl)]
    rw [if_pos (by simp)]
    rw [findSale_eq_of_sales_eq _ _ (sales_restoreAllItems _ _) sid, hfind]
    simp

/-- `refund_sale` rejects a refund amount above the sale total. -/
theorem refundSale_error_exceeds (db : DB) (sid : Nat) (sale : Sale) (amt : Int)
    (ris : List RefundItemReq) (hfind : findSale db sid = some sale)
    (hgt : sale.total_amount < amt) :
    refundSale db sid (some amt) ris = .error .refundExceedsTotal := by
  unfold refundSale
  simp only [hfind, Option.getD_some]
  rw [if_pos hgt]

/-- `refund_sale` with an explicit amount and a valid `refund_items` list:
succeeds, credits exactly the listed quantities to the listed products'
counters (all other pools untouched), and sets the status to `refunded`
exactly when the amount equals the sale total. -/
theorem refundSale_ok_items (db : DB) (sid : Nat) (sale : Sale) (amt : Int)
    (ris : List RefundItemReq) (hfind : findSale db sid = some sale)
    (hle : amt ≤ sale.total_amount) (hne : ris ≠ [])
    (hv : ∀ r ∈ ris, ∃ si,
      (saleItemsOf db sid).find? (fun i => i.product_id == r.product_id) = some si ∧
      r.quantity ≤ si.quantity) :
    ∃ db', refundSale db sid (some amt) ris = .ok db' ∧
      (∀ pid, stockOf db' pid =
        (stockOf db pid).map (fun s => s + refundListQty ris pid)) ∧
      db'.batches = db.batches ∧ db'.sale_items = db.sale_items ∧
      findSale db' sid = some { sale with status :=
        if amt = sale.total_amount then "refunded" else "partially_refunded" } := by
  obtain ⟨db1, hpr⟩ := processRefundItems_progress (saleItemsOf db sid) ris db hv
  obtain ⟨hstock, hb, hs, hsi⟩ := processRefundItems_ok (saleItemsOf db sid) ris db db1 hpr
  have hne2 : ¬ ris.isEmpty = true := by
    cases ris
    · exact absurd rfl hne
    · simp
  unfold refundSale
  simp only [hfind, Option.getD_some]
  rw [if_neg (not_lt.mpr hle), if_neg hne2]
  simp only [hpr]
  refine ⟨_, rfl, fun pid => ?_, ?_, ?_, ?_⟩
  · rw [stockOf_updateSaleRow]; exact hstock pid
  · rw [batches_updateSaleRow]; exact hb
  · rw [sale_items_updateSaleRow]; exact hsi
  · rw [findSale_updateSaleRow _ _ sid
      (fun s => { s with status := if (amt == sale.total_amount) = true
                  then "refunded" else "partially_refunded" }) (fun s => rfl)]
    rw [if_pos (by simp)]
    rw [findSale_eq_of_sales_eq _ _ hs sid, hfind]
    by_cases he : amt = sale.total_amount
    · simp [he]
    · simp [he]

/-- If any listed refund line exceeds the originally sold quantity (of the
first matching sale item), `refund_sale` answers some error — no state is
committed. -/
theorem refundSale_error_of_bad_item (db : DB) (sid : Nat) (sale : Sale) (amt : Int)
    (ris : List RefundItemReq) (hfind : findSale db sid = some sale)
    (hbad : ∃ r ∈ ris, ∃ si,
      (saleItemsOf db sid).find? (fun i => i.product_id == r.product_id) = some si ∧
      si.quantity < r.quantity) :
    ∃ e, refundSale db sid (some amt) ris = .error e := by
  by_cases hgt : sale.total_amount < amt
  · exact ⟨_, refundSale_error_exceeds db sid sale amt ris hfind hgt⟩
  · obtain ⟨r, hr, si, hfindsi, hlt⟩ := hbad
    have hne : ris ≠ [] := by intro h; subst h; cases hr
    have hne2 : ¬ ris.isEmpty = true := by
      cases ris
      · exact absurd rfl hne
      · simp
    cases hpr : processRefundItems (saleItemsOf db sid) db ris with
    | error e =>
      refine ⟨e, ?_⟩
      unfold refundSale
      simp only [hfind, Option.getD_some]
      rw [if_neg hgt, if_neg hne2]
      simp only [hpr]
    | ok db1 =>
      exfalso
      obtain ⟨si', hsi', hle'⟩ :=
        processRefundItems_sound (saleItemsOf db sid) ris db db1 hpr r hr
      rw [hfindsi] at hsi'
      cases hsi'
      exact absurd hle' (not_le.mpr hlt)

/-- Every error the amendment delta loop can produce is an
insufficient-stock error. -/
theorem applyDeltas_error_shape (oldQ newQ : Nat → Int) :
    ∀ (keys : List Nat) (db : DB) (e : ApiError),
      applyDeltas oldQ newQ db keys = .error e →
      ∃ nm a q, e = .insufficientStock nm a q := by
  intro keys
  induction keys with
  | nil => intro db e h; cases h
  | cons k rest ih =>
    intro db e h
    simp only [applyDeltas] at h
    cases hfp : findProduct db k with
    | none => simp only [hfp] at h; exact ih _ _ h
    | some p =>
      simp only [hfp] at h
      by_cases hbad : oldQ k - newQ k < 0 ∧ p.stock_quantity < -(oldQ k - newQ k)
      · rw [if_pos hbad] at h
        cases h
        exact ⟨p.name, p.stock_quantity, -(oldQ k - newQ k), rfl⟩
      · rw [if_neg hbad] at h
        exact ih _ _ h

/-- `create_return` on the cash path: requires only that every requested
product occur in the sale and exist as a product — the requested
quantities are never bounded.  It credits the quantities to the product
counters, and records the return with
`total_refund_amount = Σ original unit_price × returned quantity`. -/
theorem createReturn_ok_cash (db : DB) (saleId : Nat) (sale : Sale)
    (items : List ReturnItemReq) (reason refundMethod : String) (rid : Nat)
    (rn : String) (hfind : findSale db saleId = some sale) (hne : items ≠ [])
    (hm : (refundMethod == "credit_note") = false)
    (hv : ∀ r ∈ items,
      ((saleItemsOf db saleId).find? (fun i => i.product_id == r.product_id)).isSome ∧
      (findProduct db r.product_id).isSome) :
    ∃ db', createReturn db (some saleId) items reason refundMethod rid rn = .ok db' ∧
      (∀ pid, stockOf db' pid =
        (stockOf db pid).map (fun s => s + returnListQty items pid)) ∧
      db'.batches = db.batches ∧ db'.sale_items = db.sale_items ∧
      db'.returns = db.returns ++
        [⟨rid, rn, saleId, sale.customer_id,
          returnTotal (saleItemsOf db saleId) items, reason, "Completed"⟩] ∧
      db'.return_items = db.return_items ++
        buildReturnRows rid (saleItemsOf db saleId) items := by
  obtain ⟨out, hout⟩ :=
    processReturnItems_progress rid (saleItemsOf db saleId) items db 0 [] hv
  obtain ⟨db1, total1, rows1⟩ := out
  obtain ⟨hstock, htot, hacc, hb, hs, hsi, hret, hreti⟩ :=
    processReturnItems_ok rid (saleItemsOf db saleId) items db db1 0 total1 [] rows1 hout
  have hne2 : ¬ items.isEmpty = true := by
    cases items
    · exact absurd rfl hne
    · simp
  unfold createReturn
  simp only [hfind]
  rw [if_neg hne2]
  rw [if_neg (by simp [hm] : ¬(refundMethod == "credit_note" && sale.customer_id.isNone) = true)]
  simp only [hout]
  rw [if_neg (by simp [hm] : ¬(refundMethod == "credit_note") = true)]
  refine ⟨_, rfl, fun pid => hstock pid, hb, hsi, ?_, ?_⟩
  · rw [hret, htot]
    simp
  · rw [hreti, hacc]
    simp

/-- Replacing a sale's items: filtering the rebuilt `sale_items` table for
the sale returns exactly the new rows. -/
theorem filter_sale_items_replace (l : List SaleItem) (sid : Nat)
    (newRows : List SaleItem) (hnew : ∀ i ∈ newRows, i.sale_id = sid) :
    ((l.filter (fun i => i.sale_id != sid)) ++ newRows).filter
      (fun i => i.sale_id == sid) = newRows := by
  rw [List.filter_append]
  have h1 : (l.filter (fun i => i.sale_id != sid)).filter
      (fun i => i.sale_id == sid) = [] := by
    induction l with
    | nil => rfl
    | cons a l ih =>
      by_cases ha : a.sale_id = sid <;> simp [List.filter_cons, ha, ih]
  have h2 : newRows.filter (fun i => i.sale_id == sid) = newRows :=
    List.filter_eq_self.mpr (fun i hi => by simp [hnew i hi])
  rw [h1, h2, List.nil_append]

/-- Overwriting the `sale_items` table does not change sale lookup. -/
theorem findSale_set_sale_items (db : DB) (l : List SaleItem) (sid : Nat) :
    findSale { db with sale_items := l } sid = findSale db sid := rfl

/-- `update_sale` refuses a sale older than 1h05m. -/
theorem updateSale_error_tooOld (db : DB) (sid : Nat) (sale : Sale)
    (req : UpdateReq) (now : Int) (hfind : findSale db sid = some sale)
    (hwin : now - sale.created_at > 3900) :
    updateSale db sid req now = .error .saleTooOld := by
  unfold updateSale
  simp only [hfind]
  rw [if_pos hwin]

/-- `update_sale` within the window with all deltas coverable: succeeds;
every product's counter moves by exactly `old − new` (its Python-dict
quantities, 0 when absent), batch pools are untouched, the sale's items
are replaced by the new rows, and the header fields are overwritten. -/
theorem updateSale_ok (db : DB) (sid : Nat) (sale : Sale) (req : UpdateReq)
    (now : Int) (hfind : findSale db sid = some sale)
    (hwin : ¬ now - sale.created_at > 3900)
    (hstocks : ∀ k ∈ unionKeys db sid req, ∀ p, findProduct db k = some p →
      ¬(oldQtyOf db sid k - newQtyOf req k < 0 ∧
        p.stock_quantity < -(oldQtyOf db sid k - newQtyOf req k))) :
    ∃ db', updateSale db sid req now = .ok db' ∧
      (∀ pid, stockOf db' pid =
        if pid ∈ unionKeys db sid req then
          (stockOf db pid).map (fun s => s + (oldQtyOf db sid pid - newQtyOf req pid))
        else stockOf db pid) ∧
      db'.batches = db.batches ∧
      saleItemsOf db' sid = req.items.map (fun i =>
        ⟨sid, i.product_id, none, i.quantity, i.price, i.price * i.quantity⟩) ∧
      findSale db' sid = some { sale with
        customer_id := req.customer_id, subtotal := req.subtotal,
        tax_amount := req.tax_amount, discount_amount := req.discount_amount,
        total_amount := req.total_amount,
        payment_method := req.payment_method.getD sale.payment_method } := by
  have hnd : (unionKeys db sid req).Nodup := nodup_dedupFirst _
  obtain ⟨db1, hAD⟩ := applyDeltas_progress (oldQtyOf db sid) (newQtyOf req)
    (unionKeys db sid req) db hnd (fun k hk p hp => hstocks k hk p hp)
  obtain ⟨hstock, hb, hs, hsi⟩ := applyDeltas_ok (oldQtyOf db sid) (newQtyOf req)
    (unionKeys db sid req) db db1 hnd hAD
  unfold updateSale
  simp only [hfind]
  rw [if_neg hwin]
  unfold unionKeys oldQtyOf newQtyOf at hAD
  simp only [hAD]
  refine ⟨_, rfl, fun pid => ?_, ?_, ?_, ?_⟩
  · rw [stockOf_updateSaleRow]
    exact hstock pid
  · rw [batches_updateSaleRow]
    exact hb
  · unfold saleItemsOf
    rw [sale_items_updateSaleRow]
    exact filter_sale_items_replace db1.sale_items sid _
      (fun i hi => by
        obtain ⟨a, ha, heq⟩ := List.mem_map.mp hi
        subst heq
        rfl)
  · rw [findSale_updateSaleRow _ _ sid
        (fun s =>
          { s with
            customer_id := req.customer_id
            subtotal := req.subtotal
            tax_amount := req.tax_amount
            discount_amount := req.discount_amount
            total_amount := req.total_amount
            payment_method := req.payment_method.getD s.payment_method })
        (fun s => rfl)]
    rw [if_pos (by simp)]
    rw [findSale_set_sale_items]
    have hfs1 : findSale db1 sid = findSale db sid := by
      unfold findSale
      rw [hs]
    rw [hfs1, hfind]
    rfl

/-- Within the window, an uncoverable negative delta makes `update_sale`
fail with an insufficient-stock error. -/
theorem updateSale_error_insufficient (db : DB) (sid : Nat) (sale : Sale)
    (req : UpdateReq) (now : Int) (hfind : findSale db sid = some sale)
    (hwin : ¬ now - sale.created_at > 3900)
    (hbad : ∃ k ∈ unionKeys db sid req, ∃ p, findProduct db k = some p ∧
      oldQtyOf db sid k - newQtyOf req k < 0 ∧
      p.stock_quantity < -(oldQtyOf db sid k - newQtyOf req k)) :
    ∃ nm a q, updateSale db sid req now = .error (.insufficientStock nm a q) := by
  have hnd : (unionKeys db sid req).Nodup := nodup_dedupFirst _
  cases hAD : applyDeltas (oldQtyOf db sid) (newQtyOf req) db (unionKeys db sid req) with
  | ok db1 =>
    exfalso
    obtain ⟨k, hk, p, hp, hneg, hlow⟩ := hbad
    exact applyDeltas_sound (oldQtyOf db sid) (newQtyOf req)
      (unionKeys db sid req) db db1 hnd hAD k hk p hp ⟨hneg, hlow⟩
  | error e =>
    obtain ⟨nm, a, q, he⟩ := applyDeltas_error_shape (oldQtyOf db sid) (newQtyOf req)
      (unionKeys db sid req) db e hAD
    refine ⟨nm, a, q, ?_⟩
    unfold updateSale
    simp only [hfind]
    rw [if_neg hwin]
    unfold unionKeys oldQtyOf newQtyOf at hAD
    simp only [hAD, he]

/-! ## Claims -/

/-- Claim C1, counterexample.  The non-negativity claim is false on the
code: starting from `c1db` (all stocks non-negative), the operation
sequence sell 5 → return 5 → adjust −5 → delete-return leaves product 7 at
stock −5 (`delete_return` debits stock with no floor), and even a single
sale whose two lines both name product 7 with quantity 3 (stock 5) commits
stock −1, because `create_sale` validates every line against the same
pre-sale stock before decrementing. -/
theorem C1_counterexample :
    nonnegStocks c1db ∧
    c1trace.map (fun d => stockOf d 7) = .ok (some (-5)) ∧
    c1dup.map (fun d => stockOf d 7) = .ok (some (-1)) := by decide

/-- Claim C1, amended.  Non-negativity of all product and batch stocks is
preserved by the guarded or increment-only operations — inventory
adjustments, purchase creation, sale void, sale refund and return creation
(given non-negative stored and requested quantities and unique product
ids) — but not by the full operation set: sale creation (repeated lines,
or a batch line not covered by the batch pool) and return deletion can
drive a pool negative, as the counterexample above shows. -/
theorem C1_amended_nonneg_safe_ops (db : DB) (h : nonnegStocks db)
    (hids : (db.products.map Product.id).Nodup)
    (hitems : ∀ i ∈ db.sale_items, 0 ≤ i.quantity) :
    (∀ pid t q db', createInventoryAdjustment db pid t q = .ok db' → nonnegStocks db') ∧
    (∀ sup tot st its pidp pn db', (∀ it ∈ its, 0 ≤ it.quantity) →
      createPurchase db sup tot st its pidp pn = .ok db' → nonnegStocks db') ∧
    (∀ sid db', voidSale db sid = .ok db' → nonnegStocks db') ∧
    (∀ sid amt ris db', (∀ r ∈ ris, 0 ≤ r.quantity) →
      refundSale db sid amt ris = .ok db' → nonnegStocks db') ∧
    (∀ sid its rsn m rid rn db', (∀ r ∈ its, 0 ≤ r.quantity) →
      createReturn db sid its rsn m rid rn = .ok db' → nonnegStocks db') := by
  obtain ⟨hp, hbat⟩ := h
  refine ⟨?_, ?_, ?_, ?_, ?_⟩
  · intro pid t q db' hop
    unfold createInventoryAdjustment at hop
    cases hfp : findProduct db pid with
    | none => simp only [hfp] at hop; cases hop
    | some p =>
      simp only [hfp] at hop
      by_cases hq : q ≤ 0
      · rw [if_pos hq] at hop; cases hop
      · rw [if_neg hq] at hop
        by_cases ht1 : (t == "increase") = true
        · rw [if_pos ht1] at hop
          cases hop
          refine ⟨nonneg_products_updateProduct db pid _ hp ?_, hbat⟩
          intro p0 hp0 _
          exact add_nonneg (hp p0 hp0) (le_of_lt (lt_of_not_le hq))
        · rw [if_neg ht1] at hop
          by_cases ht2 : (t == "decrease") = true
          · rw [if_pos ht2] at hop
            by_cases hlow : p.stock_quantity < q
            · rw [if_pos hlow] at hop; cases hop
            · rw [if_neg hlow] at hop
              cases hop
              refine ⟨nonneg_products_updateProduct db pid _ hp ?_, hbat⟩
              intro p0 hp0 hid
              have h1 : findProduct db p0.id = some p0 :=
                findProduct_of_mem_nodup db hids p0 hp0
              rw [hid, hfp] at h1
              cases h1
              exact sub_nonneg.mpr (not_lt.mp hlow)
          · rw [if_neg ht2] at hop; cases hop
  · intro sup tot st its pidp pn db' hq hop
    unfold createPurchase at hop
    by_cases hguard : (sup.isEmpty || its.isEmpty) = true
    · rw [if_pos hguard] at hop; cases hop
    · rw [if_neg hguard] at hop
      refine ⟨nonneg_products_processPurchaseItems pidp _ its _ db' hq hop hp, ?_⟩
      rw [batches_processPurchaseItems pidp _ its _ db' hop]
      exact hbat
  · intro sid db' hop
    unfold voidSale at hop
    cases hfs : findSale db sid with
    | none => simp only [hfs] at hop; cases hop
    | some sale =>
      simp only [hfs] at hop
      by_cases hst : (sale.status == "voided") = true
      · rw [if_pos hst] at hop; cases hop
      · rw [if_neg hst] at hop
        cases hop
        refine ⟨?_, ?_⟩
        · exact nonneg_products_restoreAllItems (saleItemsOf db sid) db
            (fun i hi => hitems i (List.mem_filter.mp hi).1) hp
        · rw [batches_updateSaleRow, batches_restoreAllItems]
          exact hbat
  · intro sid amt ris db' hq hop
    unfold refundSale at hop
    cases hfs : findSale db sid with
    | none => simp only [hfs] at hop; cases hop
    | some sale =>
      simp only [hfs] at hop
      by_cases hgt : sale.total_amount < amt.getD sale.total_amount
      · rw [if_pos hgt] at hop; cases hop
      · rw [if_neg hgt] at hop
        by_cases hempty : ris.isEmpty = true
        · rw [if_pos hempty] at hop
          cases hop
          refine ⟨?_, ?_⟩
          · exact nonneg_products_restoreAllItems (saleItemsOf db sid) db
              (fun i hi => hitems i (List.mem_filter.mp hi).1) hp
          · rw [batches_updateSaleRow, batches_restoreAllItems]
            exact hbat
        · rw [if_neg hempty] at hop
          cases hpr : processRefundItems (saleItemsOf db sid) db ris with
          | error e => simp only [hpr] at hop; cases hop
          | ok db1 =>
            simp only [hpr] at hop
            cases hop
            obtain ⟨_, hb1, _, _⟩ :=
              processRefundItems_ok (saleItemsOf db sid) ris db db1 hpr
            refine ⟨?_, ?_⟩
            · exact nonneg_products_processRefundItems (saleItemsOf db sid)
                ris db db1 hq hpr hp
            · rw [batches_updateSaleRow, hb1]
              exact hbat
  · intro sid its rsn m rid rn db' hq hop
    cases sid with
    | none => unfold createReturn at hop; cases hop
    | some saleId =>
      simp only [createReturn] at hop
      by_cases hempty : its.isEmpty = true
      · rw [if_pos hempty] at hop; cases hop
      · rw [if_neg hempty] at hop
        cases hfs : findSale db saleId with
        | none => simp only [hfs] at hop; cases hop
        | some sale =>
          simp only [hfs] at hop
          by_cases hguard : (m == "credit_note" && sale.customer_id.isNone) = true
          · rw [if_pos hguard] at hop; cases hop
          · rw [if_neg hguard] at hop
            cases hpr : processReturnItems rid (saleItemsOf db saleId) db 0 [] its with
            | error e => simp only [hpr] at hop; cases hop
            | ok out =>
              obtain ⟨db1, total1, rows1⟩ := out
              simp only [hpr] at hop
              by_cases hcn : (m == "credit_note") = true
              · rw [if_pos hcn] at hop; cases hop
              · rw [if_neg hcn] at hop
                cases hop
                obtain ⟨_, _, _, hb1, _, _, _, _⟩ :=
                  processReturnItems_ok rid (saleItemsOf db saleId) its db db1
                    0 total1 [] rows1 hpr
                refine ⟨?_, ?_⟩
                · exact nonneg_products_processReturnItems rid (saleItemsOf db saleId)
                    its db db1 0 total1 [] rows1 hq hpr hp
                · intro b hb2
                  refine hbat b ?_
                  rw [← hb1]
                  exact hb2

/-- Witness for the amended C1: the guarded increase adjustment on `c1db`
keeps all stocks non-negative. -/
theorem C1_amended_witness : nonnegStocks c1adj :=
  (C1_amended_nonneg_safe_ops c1db (by decide) (by decide) (by decide)).1
    7 "increase" 3 c1adj (by decide)

/-- Claim C2 (confirmed).  A sale request whose lines all name existing,
active products but where some line asks for more than the product's
`stock_quantity` fails with the insufficient-stock error naming that
product and its available quantity, and no successor state is committed
(the model returns `.error`, i.e. the transaction never reaches
`db.session.commit()`; the offending check runs before any stock
mutation). -/
theorem C2_insufficient_stock_aborts (db : DB) (req : SaleReq) (sid : Nat)
    (sn : String) (now : Int) (hne : req.items ≠ [])
    (hwf : ∀ it ∈ req.items, ∃ p, findProduct db it.product_id = some p ∧
      p.is_active = true)
    (hbad : ∃ it ∈ req.items, ∃ p, findProduct db it.product_id = some p ∧
      p.stock_quantity < it.quantity) :
    ∃ it ∈ req.items, ∃ p, findProduct db it.product_id = some p ∧
      p.stock_quantity < it.quantity ∧
      createSale db req sid sn now =
        .error (.insufficientStock p.name p.stock_quantity it.quantity) ∧
      ∀ db', createSale db req sid sn now ≠ .ok db' := by
  obtain ⟨it, hit, p, hp, hlt, heq⟩ := validateItems_insufficient db req.items hwf hbad
  refine ⟨it, hit, p, hp, hlt, createSale_error_of_validate db req sid sn now _ hne heq,
    fun db' hc => ?_⟩
  rw [createSale_error_of_validate db req sid sn now _ hne heq] at hc
  cases hc

/-- Witness for C2: product 11 has stock 1, the request asks for 2. -/
theorem C2_witness :
    ∃ it ∈ c2req.items, ∃ p, findProduct c2db it.product_id = some p ∧
      p.stock_quantity < it.quantity ∧
      createSale c2db c2req 1 "SALE-1" 0 =
        .error (.insufficientStock p.name p.stock_quantity it.quantity) ∧
      ∀ db', createSale c2db c2req 1 "SALE-1" 0 ≠ .ok db' :=
  C2_insufficient_stock_aborts c2db c2req 1 "SALE-1" 0 (by decide)
    (fun it hit => by
      have h1 : it = (⟨11, 2, none, none⟩ : SaleItemReq) := by
        have h2 : c2req.items = [⟨11, 2, none, none⟩] := rfl
        rw [h2] at hit
        simpa using hit
      subst h1
      exact ⟨⟨11, "A", 3, 1, 0, true, false⟩, rfl, rfl⟩)
    ⟨⟨11, 2, none, none⟩, by decide, ⟨11, "A", 3, 1, 0, true, false⟩, rfl, by decide⟩

/-- Claim C3, counterexample.  Voiding a batch-tracked sale does not
restore the batch pool: selling 4 units of product 4 from batch 30 leaves
the batch at 6 and the (stale) product counter at 10; the void credits the
*product* counter (10 → 14) while the batch stays at 6 (not the claimed
10); and a subsequent refund of the already-voided sale restores the same
stock again (14 → 18), so the stock a sale consumed can be restored
twice. -/
theorem C3_counterexample :
    createSale c3db c3req 1 "SALE-1" 0 = .ok c3sold ∧
    batchStockOf c3sold 30 = some 6 ∧ stockOf c3sold 4 = some 10 ∧
    voidSale c3sold 1 = .ok c3voided ∧
    batchStockOf c3voided 30 = some 6 ∧ stockOf c3voided 4 = some 14 ∧
    refundSale c3voided 1 none [] = .ok c3refunded ∧
    stockOf c3refunded 4 = some 18 := by decide

/-- Claim C3, amended.  Voiding a completed sale adds every item's
original quantity to the item's *product counter* (batch pools are never
credited); a second void attempt fails with the state error and, the
error committing nothing, stock is unchanged; but the restoration is not
at-most-once across void and refund: a full refund of the just-voided
sale succeeds (refund never checks the status) and credits the same
quantities a second time. -/
theorem C3_amended_void_refund (db : DB) (sid : Nat) (sale : Sale)
    (hfind : findSale db sid = some sale) :
    (sale.status = "voided" → voidSale db sid = .error .alreadyVoided) ∧
    (sale.status ≠ "voided" → ∃ db', voidSale db sid = .ok db' ∧
      (∀ pid, stockOf db' pid =
        (stockOf db pid).map (fun s => s + itemsQty (saleItemsOf db sid) pid)) ∧
      db'.batches = db.batches ∧
      findSale db' sid = some { sale with status := "voided" } ∧
      ∃ db'', refundSale db' sid none [] = .ok db'' ∧
        ∀ pid, stockOf db'' pid =
          (stockOf db pid).map (fun s =>
            s + itemsQty (saleItemsOf db sid) pid + itemsQty (saleItemsOf db sid) pid)) := by
  refine ⟨fun hst => voidSale_error_voided db sid sale hfind hst, fun hst => ?_⟩
  obtain ⟨db', hok, hstock, hb, hsi2, hfs⟩ := voidSale_ok db sid sale hfind hst
  obtain ⟨db'', hok2, hstock2, _, _, _⟩ := refundSale_ok_full db' sid _ hfs
  refine ⟨db', hok, hstock, hb, hfs, db'', hok2, fun pid => ?_⟩
  rw [hstock2 pid, saleItemsOf_eq_of_sale_items_eq db db' hsi2 sid, hstock pid]
  cases stockOf db pid <;> simp [add_assoc]

/-- Witness for the amended C3 on `c3wdb` (a completed sale of 2 units of
product 15). -/
theorem C3_witness :
    ∃ db', voidSale c3wdb 1 = .ok db' ∧
      (∀ pid, stockOf db' pid =
        (stockOf c3wdb pid).map (fun s => s + itemsQty (saleItemsOf c3wdb 1) pid)) ∧
      db'.batches = c3wdb.batches ∧
      findSale db' 1 = some ⟨1, "SALE-1", none, 4, 0, 0, 4, "cash", "voided", 0⟩ ∧
      ∃ db'', refundSale db' 1 none [] = .ok db'' ∧
        ∀ pid, stockOf db'' pid =
          (stockOf c3wdb pid).map (fun s =>
            s + itemsQty (saleItemsOf c3wdb 1) pid + itemsQty (saleItemsOf c3wdb 1) pid) :=
  (C3_amended_void_refund c3wdb 1 ⟨1, "SALE-1", none, 4, 0, 0, 4, "cash", "completed", 0⟩
    (by decide)).2 (by decide)

/-- Claim C4, counterexample.  The stock-sufficiency check of sale
creation uses the product's own `stock_quantity` field, not the batch
sum: on `c4db` (own counter 0, batch sum 10) a sale of 1 unit against the
well-stocked batch is rejected with insufficient stock, and on `c4dbB`
(own counter 10, batch sum 2) a sale of 5 is accepted, driving the batch
to −3 — so availability decisions are *not* made on Σ(batch stock). -/
theorem C4_counterexample :
    createSale c4db c4req 1 "SALE-1" 0 = .error (.insufficientStock "Q" 0 1) ∧
    batchStockSum c4db 2 = 10 ∧ (1 : Int) ≤ 10 ∧
    createSale c4dbB c4reqB 1 "SALE-1" 0 = .ok c4soldB ∧
    batchStockSum c4dbB 3 = 2 ∧ batchStockOf c4soldB 20 = some (-3) := by decide

/-- Claim C4, amended.  For a batch-managed product the sale-creation
availability check consults only the product's own `stock_quantity`
field: the sale is rejected whenever that field is below the requested
quantity, even when the batch sum covers the request; the batch sum is
used only by `Product.to_dict` for reporting. -/
theorem C4_amended_check_uses_product_field (db : DB) (pid : Nat) (qty : Int)
    (bid : Nat) (p : Product) (cid : Option Nat) (sub tax dis tot : Int)
    (pm st : String) (sid : Nat) (sn : String) (now : Int)
    (hfp : findProduct db pid = some p) (hact : p.is_active = true)
    (hbm : p.batch_management_enabled = true) (hlt : p.stock_quantity < qty)
    (_hsum : qty ≤ batchStockSum db pid) :
    createSale db ⟨[⟨pid, qty, some bid, none⟩], cid, sub, tax, dis, tot, pm, st⟩
        sid sn now =
      .error (.insufficientStock p.name p.stock_quantity qty) ∧
    productDictStock db p = batchStockSum db p.id := by
  constructor
  · apply createSale_error_of_validate _ _ _ _ _ _ (by simp)
    simp only [validateItems, hfp, hact]
    simp [hlt]
  · unfold productDictStock
    rw [if_pos hbm]

/-- Witness for the amended C4 on `c4db`: own counter 0 < 1 requested
≤ 10 in the batch. -/
theorem C4_witness :
    createSale c4db ⟨[⟨2, 1, some 10, none⟩], none, 7, 0, 0, 7, "cash", "completed"⟩
        1 "SALE-1" 0 =
      .error (.insufficientStock "Q" 0 1) ∧
    productDictStock c4db ⟨2, "Q", 7, 0, 0, true, true⟩ = batchStockSum c4db 2 :=
  C4_amended_check_uses_product_field c4db 2 1 10 ⟨2, "Q", 7, 0, 0, true, true⟩
    none 7 0 0 7 "cash" "completed" 1 "SALE-1" 0
    rfl rfl rfl (by decide) (by decide)

/-- Claim C5 (code bug).  The cash path of `create_return` does price the
return at the original sale's `unit_price` (first conjunct: returning 1
of the 2 units bought at 10 records `total_refund_amount = 10` even
though the product's current price could differ), but the credit-note
path can never succeed: `models.py` comments out the `store_credit`
column of `Customer`, so line 148 of `routes/returns.py`
(`sale.customer.store_credit = (sale.customer.store_credit or 0) + …`)
raises `AttributeError`, the route's `except` answers a 500 after
rollback, and no `Return`, `CreditNote` or stock change is persisted. -/
theorem C5_credit_note_crashes :
    (∃ db', createReturn c5db (some 1) [⟨6, 1⟩] "worn" "cash" 1 "RTN-1" = .ok db' ∧
      (findReturn db' 1).map (fun r => r.total_refund_amount) = some 10) ∧
    createReturn c5db (some 1) [⟨6, 1⟩] "worn" "credit_note" 1 "RTN-1" =
      .error (.attributeError "store_credit") := by
  constructor
  · refine ⟨(createReturn c5db (some 1) [⟨6, 1⟩] "worn" "cash" 1 "RTN-1").toOption.getD emptyDB,
      by decide, by decide⟩
  · decide

/-- Claim C6, counterexample.  `create_return` accepts a return of 5
units against a sale item that sold only 1: the cumulative returned
quantity for (sale 1, product 5) becomes 5 > 1. -/
theorem C6_counterexample :
    createReturn c6db (some 1) [⟨5, 5⟩] "worn" "cash" 1 "RTN-1" = .ok c6ret ∧
    itemsQty (saleItemsOf c6db 1) 5 = 1 ∧
    returnedQty c6ret 1 5 = 5 ∧
    ¬ returnedQty c6ret 1 5 ≤ itemsQty (saleItemsOf c6db 1) 5 := by decide

/-- Claim C6, amended.  `create_return` (cash path) checks only that each
requested product occurs in the sale and still exists; the requested
quantities are never bounded by the sold quantities, so returns of any
size succeed, crediting the product counters and recording
`total_refund_amount = Σ original unit_price × returned quantity`. -/
theorem C6_amended_no_quantity_bound (db : DB) (saleId : Nat) (sale : Sale)
    (items : List ReturnItemReq) (reason refundMethod : String) (rid : Nat)
    (rn : String) (hfind : findSale db saleId = some sale) (hne : items ≠ [])
    (hm : (refundMethod == "credit_note") = false)
    (hv : ∀ r ∈ items,
      ((saleItemsOf db saleId).find? (fun i => i.product_id == r.product_id)).isSome ∧
      (findProduct db r.product_id).isSome) :
    ∃ db', createReturn db (some saleId) items reason refundMethod rid rn = .ok db' ∧
      (∀ pid, stockOf db' pid =
        (stockOf db pid).map (fun s => s + returnListQty items pid)) ∧
      db'.returns = db.returns ++
        [⟨rid, rn, saleId, sale.customer_id,
          returnTotal (saleItemsOf db saleId) items, reason, "Completed"⟩] ∧
      db'.return_items = db.return_items ++
        buildReturnRows rid (saleItemsOf db saleId) items := by
  obtain ⟨db', hok, hstock, _, _, hret, hreti⟩ :=
    createReturn_ok_cash db saleId sale items reason refundMethod rid rn
      hfind hne hm hv
  exact ⟨db', hok, hstock, hret, hreti⟩

/-- Witness for the amended C6 on `c6db`: a return of 5 against a sold
quantity of 1 goes through. -/
theorem C6_witness :
    ∃ db', createReturn c6db (some 1) [⟨5, 5⟩] "worn" "cash" 1 "RTN-1" = .ok db' ∧
      (∀ pid, stockOf db' pid =
        (stockOf c6db pid).map (fun s => s + returnListQty [⟨5, 5⟩] pid)) ∧
      db'.returns = c6db.returns ++
        [⟨1, "RTN-1", 1, none, returnTotal (saleItemsOf c6db 1) [⟨5, 5⟩], "worn",
          "Completed"⟩] ∧
      db'.return_items = c6db.return_items ++
        buildReturnRows 1 (saleItemsOf c6db 1) [⟨5, 5⟩] :=
  C6_amended_no_quantity_bound c6db 1 ⟨1, "SALE-1", none, 10, 0, 0, 10, "cash", "completed", 0⟩
    [⟨5, 5⟩] "worn" "cash" 1 "RTN-1" (by decide) (by decide) (by decide)
    (fun r hr => by
      have h1 : r = (⟨5, 5⟩ : ReturnItemReq) := by simpa using hr
      subst h1
      exact ⟨rfl, rfl⟩)

/-- Claim C7, counterexample.  The status machine is violated in both
directions: a fully refunded sale can be voided (`refunded → voided`),
and a voided sale can be refunded (`voided → refunded`) — `refund_sale`
never inspects the status and `void_sale` only guards against
`voided`. -/
theorem C7_counterexample :
    refundSale c7sold 1 none [] = .ok c7refunded ∧
    (findSale c7refunded 1).map (fun s => s.status) = some "refunded" ∧
    voidSale c7refunded 1 = .ok c7thenVoided ∧
    (findSale c7thenVoided 1).map (fun s => s.status) = some "voided" ∧
    voidSale c7sold 1 = .ok c7voided ∧
    (findSale c7voided 1).map (fun s => s.status) = some "voided" ∧
    refundSale c7voided 1 none [] = .ok c7thenRefunded ∧
    (findSale c7thenRefunded 1).map (fun s => s.status) = some "refunded" := by decide

/-- Claim C7, amended.  The only guard on the sale status machine is that
`void_sale` refuses a sale already in `voided`; every other transition
request goes through: any non-voided sale (including `refunded` and
`partially_refunded`) can be voided, and any sale — whatever its status,
`voided` included — can be refunded, landing in `refunded` (full) or
`partially_refunded` (partial).  So `voided` and `refunded` are not
terminal. -/
theorem C7_amended_status_transitions (db : DB) (sid : Nat) (sale : Sale)
    (hfind : findSale db sid = some sale) :
    (sale.status = "voided" → voidSale db sid = .error .alreadyVoided) ∧
    (sale.status ≠ "voided" → ∃ db', voidSale db sid = .ok db' ∧
      findSale db' sid = some { sale with status := "voided" }) ∧
    (∃ db', refundSale db sid none [] = .ok db' ∧
      findSale db' sid = some { sale with status := "refunded" }) := by
  refine ⟨fun h => voidSale_error_voided db sid sale hfind h, fun h => ?_, ?_⟩
  · obtain ⟨db', hok, _, _, _, hfs⟩ := voidSale_ok db sid sale hfind h
    exact ⟨db', hok, hfs⟩
  · obtain ⟨db', hok, _, _, _, hfs⟩ := refundSale_ok_full db sid sale hfind
    exact ⟨db', hok, hfs⟩

/-- Witness for the amended C7: voiding the *refunded* sale of
`c7refunded` succeeds. -/
theorem C7_witness :
    ∃ db', voidSale c7refunded 1 = .ok db' ∧
      findSale db' 1 = some ⟨1, "SALE-1", none, 2, 0, 0, 2, "cash", "voided", 0⟩ :=
  (C7_amended_status_transitions c7refunded 1
    ⟨1, "SALE-1", none, 2, 0, 0, 2, "cash", "refunded", 0⟩ (by decide)).2.1 (by decide)

/-- `find?` skips a prefix on which the predicate is everywhere false. -/
theorem find_append_of_none {a : Type} (p : a → Bool) (l1 l2 : List a)
    (h : ∀ x ∈ l1, p x = false) :
    (l1 ++ l2).find? p = l2.find? p := by
  induction l1 with
  | nil => rfl
  | cons x l ih =>
    simp only [List.cons_append, List.find?, h x (List.mem_cons_self _ _)]
    exact ih (fun y hy => h y (List.mem_cons_of_mem _ hy))

/-- Claim C8 (confirmed).  For a refund request with an explicit amount
and item list: the request fails when the amount exceeds the sale total
(nothing committed); with a valid item list (every listed product occurs
in the sale and each listed quantity is at most the first matching sale
item's quantity) the refund succeeds, restores stock only for the listed
(product, quantity) pairs, and sets the status to `refunded` exactly when
the amount equals the total, `partially_refunded` otherwise; and when
some listed quantity exceeds the originally sold quantity, the refund
fails with some error (no partial commit — errors carry no state). -/
theorem C8_refund_behavior (db : DB) (sid : Nat) (sale : Sale) (amt : Int)
    (ris : List RefundItemReq) (hfind : findSale db sid = some sale) :
    (sale.total_amount < amt →
      refundSale db sid (some amt) ris = .error .refundExceedsTotal) ∧
    (amt ≤ sale.total_amount → ris ≠ [] →
      (∀ r ∈ ris, ∃ si,
        (saleItemsOf db sid).find? (fun i => i.product_id == r.product_id) = some si ∧
        r.quantity ≤ si.quantity) →
      ∃ db', refundSale db sid (some amt) ris = .ok db' ∧
        (∀ pid, stockOf db' pid =
          (stockOf db pid).map (fun s => s + refundListQty ris pid)) ∧
        db'.batches = db.batches ∧
        findSale db' sid = some { sale with status :=
          if amt = sale.total_amount then "refunded" else "partially_refunded" }) ∧
    ((∃ r ∈ ris, ∃ si,
        (saleItemsOf db sid).find? (fun i => i.product_id == r.product_id) = some si ∧
        si.quantity < r.quantity) →
      ∃ e, refundSale db sid (some amt) ris = .error e) := by
  refine ⟨fun h => refundSale_error_exceeds db sid sale amt ris hfind h,
    fun hle hne hv => ?_,
    fun hbad => refundSale_error_of_bad_item db sid sale amt ris hfind hbad⟩
  obtain ⟨db', hok, hstock, hb, _, hfs⟩ :=
    refundSale_ok_items db sid sale amt ris hfind hle hne hv
  exact ⟨db', hok, hstock, hb, hfs⟩

/-- Witness for C8: partial refund of 16 (of 40) with item list
[(product 12, qty 2 of the 5 sold)]. -/
theorem C8_witness :
    ∃ db', refundSale c8db 1 (some 16) [⟨12, 2⟩] = .ok db' ∧
      (∀ pid, stockOf db' pid =
        (stockOf c8db pid).map (fun s => s + refundListQty [⟨12, 2⟩] pid)) ∧
      db'.batches = c8db.batches ∧
      findSale db' 1 = some { (⟨1, "SALE-1", none, 40, 0, 0, 40, "cash",
        "completed", 0⟩ : Sale) with
        status := if (16 : Int) = 40 then "refunded" else "partially_refunded" } :=
  (C8_refund_behavior c8db 1 ⟨1, "SALE-1", none, 40, 0, 0, 40, "cash", "completed", 0⟩
    16 [⟨12, 2⟩] (by decide)).2.1 (by decide) (by decide)
    (fun r hr => by
      have h1 : r = (⟨12, 2⟩ : RefundItemReq) := by simpa using hr
      subst h1
      exact ⟨⟨1, 12, none, 5, 4, 20⟩, rfl, by decide⟩)

/-- Claim C9 (confirmed).  Amendment is allowed only within 1h05m
(3900 s) of creation, else it fails with the too-old error; within the
window, if for every product of the union of old and new item sets the
negative part of the delta `old − new` (quantities read off the Python
dicts, 0 when absent) is covered by that product's stock, the amendment
succeeds: every product counter moves by exactly its delta, batch pools
are untouched, the old `SaleItem` rows are replaced by the new ones and
the header is overwritten, all in the same transaction; and if some
product's negative delta is not covered, the whole operation fails with
an insufficient-stock error and nothing is committed. -/
theorem C9_amendment (db : DB) (sid : Nat) (sale : Sale) (req : UpdateReq)
    (now : Int) (hfind : findSale db sid = some sale) :
    (now - sale.created_at > 3900 → updateSale db sid req now = .error .saleTooOld) ∧
    (¬ now - sale.created_at > 3900 →
      (∀ k ∈ unionKeys db sid req, ∀ p, findProduct db k = some p →
        ¬(oldQtyOf db sid k - newQtyOf req k < 0 ∧
          p.stock_quantity < -(oldQtyOf db sid k - newQtyOf req k))) →
      ∃ db', updateSale db sid req now = .ok db' ∧
        (∀ pid, stockOf db' pid =
          if pid ∈ unionKeys db sid req then
            (stockOf db pid).map (fun s => s + (oldQtyOf db sid pid - newQtyOf req pid))
          else stockOf db pid) ∧
        db'.batches = db.batches ∧
        saleItemsOf db' sid = req.items.map (fun i =>
          ⟨sid, i.product_id, none, i.quantity, i.price, i.price * i.quantity⟩) ∧
        findSale db' sid = some { sale with
          customer_id := req.customer_id, subtotal := req.subtotal,
          tax_amount := req.tax_amount, discount_amount := req.discount_amount,
          total_amount := req.total_amount,
          payment_method := req.payment_method.getD sale.payment_method }) ∧
    (¬ now - sale.created_at > 3900 →
      (∃ k ∈ unionKeys db sid req, ∃ p, findProduct db k = some p ∧
        oldQtyOf db sid k - newQtyOf req k < 0 ∧
        p.stock_quantity < -(oldQtyOf db sid k - newQtyOf req k)) →
      ∃ nm a q, updateSale db sid req now = .error (.insufficientStock nm a q)) :=
  ⟨fun h => updateSale_error_tooOld db sid sale req now hfind h,
   fun hwin hstocks => updateSale_ok db sid sale req now hfind hwin hstocks,
   fun hwin hbad => updateSale_error_insufficient db sid sale req now hfind hwin hbad⟩

/-- Witness for C9: amend the sale of 3 units of product 13 to 5 units,
98 minutes before the window closes; the counter drops by 2 and the item
row is replaced. -/
theorem C9_witness :
    ∃ db', updateSale c9db 1 c9req 100 = .ok db' ∧
      (∀ pid, stockOf db' pid =
        if pid ∈ unionKeys c9db 1 c9req then
          (stockOf c9db pid).map (fun s => s + (oldQtyOf c9db 1 pid - newQtyOf c9req pid))
        else stockOf c9db pid) ∧
      db'.batches = c9db.batches ∧
      saleItemsOf db' 1 = c9req.items.map (fun i =>
        ⟨1, i.product_id, none, i.quantity, i.price, i.price * i.quantity⟩) ∧
      findSale db' 1 = some { (⟨1, "SALE-1", none, 6, 0, 0, 6, "cash", "completed", 0⟩ : Sale) with
        customer_id := c9req.customer_id, subtotal := c9req.subtotal,
        tax_amount := c9req.tax_amount, discount_amount := c9req.discount_amount,
        total_amount := c9req.total_amount,
        payment_method := c9req.payment_method.getD "cash" } :=
  (C9_amendment c9db 1 ⟨1, "SALE-1", none, 6, 0, 0, 6, "cash", "completed", 0⟩
    c9req 100 (by decide)).2.1 (by decide)
    (fun k hk p hp => by
      have hks : unionKeys c9db 1 c9req = [13] := by decide
      rw [hks] at hk
      have h13 : k = 13 := by simpa using hk
      subst h13
      have hfp13 : findProduct c9db 13 = some ⟨13, "C", 2, 10, 0, true, false⟩ := rfl
      rw [hfp13] at hp
      cases hp
      decide)

/-- Claim C10 (confirmed).  On every accepted sale the persisted header's
`subtotal`, `tax_amount`, `discount_amount` and `total_amount` are
exactly the caller-supplied values — nothing recomputes or validates them
against the line items (the witness stores `total_amount = 999` over a
single line whose `total_price` is 5). -/
theorem C10_totals_verbatim (db : DB) (req : SaleReq) (sid : Nat) (sn : String)
    (now : Int) (db' : DB) (h : createSale db req sid sn now = .ok db')
    (hfresh : ∀ s ∈ db.sales, s.id ≠ sid) :
    ∃ s, findSale db' sid = some s ∧ s.subtotal = req.subtotal ∧
      s.tax_amount = req.tax_amount ∧ s.discount_amount = req.discount_amount ∧
      s.total_amount = req.total_amount := by
  unfold createSale at h
  by_cases hempty : req.items.isEmpty = true
  · rw [if_pos hempty] at h; cases h
  · rw [if_neg hempty] at h
    cases hv : validateItems db req.items with
    | error e => simp only [hv] at h; cases h
    | ok u =>
      cases u
      simp only [hv] at h
      have hs2 : db'.sales = db.sales ++
          [⟨sid, sn, req.customer_id, req.subtotal, req.tax_amount,
            req.discount_amount, req.total_amount, req.payment_method,
            req.status, now⟩] :=
        sales_processItems sid req.items _ db' h
      refine ⟨⟨sid, sn, req.customer_id, req.subtotal, req.tax_amount,
        req.discount_amount, req.total_amount, req.payment_method, req.status, now⟩,
        ?_, rfl, rfl, rfl, rfl⟩
      unfold findSale
      rw [hs2, find_append_of_none _ _ _ (fun s hs => by simp [hfresh s hs])]
      simp [List.find?]

/-- Witness for C10: the stored header repeats the request's 999 even
though the only line totals 5. -/
theorem C10_witness :
    (∃ s, findSale c10res 1 = some s ∧ s.subtotal = c10req.subtotal ∧
      s.tax_amount = c10req.tax_amount ∧ s.discount_amount = c10req.discount_amount ∧
      s.total_amount = c10req.total_amount) ∧
    c10req.total_amount = 999 ∧
    ((saleItemsOf c10res 1).map (fun i => i.total_price)).sum = 5 ∧
    (999 : Int) ≠ 5 :=
  ⟨C10_totals_verbatim c10db c10req 1 "SALE-1" 0 c10res (by decide) (by decide),
   by decide, by decide, by decide⟩

end SaleStock
